import Mathlib

/-
Verification of the multi-portal application-automation router of the
Job_Agent repository (module src/automator.py).

The Python module is shallowly embedded as follows.  A browser session is a
page: an association list from selectors to the current value of the element
they locate (an element is present on the page iff its selector has an
entry).  Every driver call made by the Python code is recorded as an event in
a trace carried by the state.  Python exceptions are modelled with an Except
layer: a computation is a function from an environment (fault-injection
switches and the filesystem, which the source never consults) and a state to
a result together with the next state.  The try/except and try/finally
statements of the source are modelled by pyTry and pyTryFinally below, with
the exact exception classes each source site catches.
-/

/-- Exception kinds thrown by the modelled selenium calls: TimeoutException,
NoSuchElementException, KeyError (from dict subscription), and any other
exception class (WebDriverException and friends). -/
inductive PyErr
  | timeoutExc
  | noSuchElementExc
  | keyErrorExc
  | otherExc
deriving DecidableEq, Repr

/-- Selector of a page element, as built by the By locators of the source.
Quote characters inside the source XPath and CSS strings are dropped here;
the strings are only identity tokens for elements. -/
inductive Sel
  | byId (s : String)
  | byCss (s : String)
  | byXPath (s : String)
  | byName (s : String)
  | byClassName (s : String)
deriving DecidableEq, Repr

/-- Observable action issued on the browser session, the console, or the
filesystem.  quitBrowser is never emitted by the embedded module; it is the
event a driver.quit() call would produce and exists so that its absence can
be stated. -/
inductive Event
  | navigate (url : String)
  | lookup (sel : Sel)
  | clickOn (sel : Sel)
  | sendKeysTo (sel : Sel) (text : String)
  | switchToFrame (sel : Sel)
  | switchToDefaultContent
  | screenshot (file : String)
  | quitBrowser
  | echo (msg : String)
deriving DecidableEq, Repr

/-- State threaded through a run: the live page and the trace of events
issued so far. -/
structure St where
  page : List (Sel × String)
  events : List Event
deriving DecidableEq, Repr

/-- Environment of a run: fault-injection switches telling which driver calls
raise (modelling WebDriverException-style failures of click, send_keys,
frame switch and navigation), and the filesystem.  fileExists is part of the
environment so that a file-existence precondition could be expressed; the
embedded source never consults it. -/
structure Env where
  clickRaises : Sel → Bool
  sendRaises : Sel → Bool
  frameSwitchRaises : Bool
  navRaises : Bool
  fileExists : String → Bool

/-- Computation over the browser state: reader of the environment, state of
St, exceptions of PyErr. -/
def M (α : Type) : Type := Env → St → Except PyErr α × St

instance : Monad M where
  pure a := fun _ s => (Except.ok a, s)
  bind m f := fun env s =>
    match m env s with
    | (Except.ok a, s1) => f a env s1
    | (Except.error e, s1) => (Except.error e, s1)

/-- Python raise statement / a selenium call raising. -/
def throwErr (e : PyErr) : M α := fun _ s => (Except.error e, s)

/-- Append one event to the trace. -/
def emit (e : Event) : M Unit :=
  fun _ s => (Except.ok (), { s with events := s.events ++ [e] })

/-- Association-list lookup, used both for the page and for the Python dicts
of the source. -/
def alistFind {β : Type} : List (String × β) → String → Option β
  | [], _ => none
  | (k, v) :: rest, key => if k = key then some v else alistFind rest key

/-- Page lookup by selector: some value iff the element is present. -/
def pageLookup : List (Sel × String) → Sel → Option String
  | [], _ => none
  | (k, v) :: rest, sel => if k = sel then some v else pageLookup rest sel

/-- Effect of element.send_keys on the page: the text is typed into the
element, appending to its current value. -/
def pageSend : List (Sel × String) → Sel → String → List (Sel × String)
  | [], _, _ => []
  | (k, v) :: rest, sel, text =>
    if k = sel then (k, v ++ text) :: rest else (k, v) :: pageSend rest sel text

/-- WebDriverWait(...).until(EC.presence_of_element_located(sel)) and
element_to_be_clickable(sel): a bounded wait.  An element that never appears
within the timeout makes the wait raise TimeoutException.  Returns the value
attribute of the element found. -/
def waitFor (sel : Sel) : M String := fun _ s =>
  let s1 : St := { s with events := s.events ++ [Event.lookup sel] }
  match pageLookup s.page sel with
  | some v => (Except.ok v, s1)
  | none => (Except.error PyErr.timeoutExc, s1)

/-- driver.find_element(sel): immediate lookup; raises NoSuchElementException
when the element is absent.  Returns the value attribute of the element
(element.get_attribute reading; a missing attribute reads as the empty
string, the falsy value of the source). -/
def findElement (sel : Sel) : M String := fun _ s =>
  let s1 : St := { s with events := s.events ++ [Event.lookup sel] }
  match pageLookup s.page sel with
  | some v => (Except.ok v, s1)
  | none => (Except.error PyErr.noSuchElementExc, s1)

/-- element.click(): may raise when the environment injects a fault. -/
def clickElem (sel : Sel) : M Unit := fun env s =>
  let s1 : St := { s with events := s.events ++ [Event.clickOn sel] }
  if env.clickRaises sel then (Except.error PyErr.otherExc, s1) else (Except.ok (), s1)

/-- element.send_keys(text): types text into the element; may raise when the
environment injects a fault. -/
def sendKeys (sel : Sel) (text : String) : M Unit := fun env s =>
  let s1 : St := { page := s.page, events := s.events ++ [Event.sendKeysTo sel text] }
  if env.sendRaises sel then (Except.error PyErr.otherExc, s1)
  else (Except.ok (), { s1 with page := pageSend s.page sel text })

/-- driver.switch_to.frame(iframe). -/
def switchFrame (sel : Sel) : M Unit := fun env s =>
  let s1 : St := { s with events := s.events ++ [Event.switchToFrame sel] }
  if env.frameSwitchRaises then (Except.error PyErr.otherExc, s1) else (Except.ok (), s1)

/-- driver.switch_to.default_content(). -/
def switchToDefault : M Unit := emit Event.switchToDefaultContent

/-- driver.get(url): navigation; may raise when the environment injects a
fault. -/
def navigateTo (url : String) : M Unit := fun env s =>
  let s1 : St := { s with events := s.events ++ [Event.navigate url] }
  if env.navRaises then (Except.error PyErr.otherExc, s1) else (Except.ok (), s1)

/-- driver.save_screenshot(file). -/
def saveScreenshot (file : String) : M Unit := emit (Event.screenshot file)

/-- print(msg): console output. -/
def pyPrint (msg : String) : M Unit := emit (Event.echo msg)

/-- time.sleep(n): no observable effect in the model. -/
def sleepSec (_n : Nat) : M Unit := pure ()

/-- Python dict subscription d[k]: raises KeyError when the key is absent. -/
def pyGet (d : List (String × String)) (k : String) : M String :=
  match alistFind d k with
  | some v => pure v
  | none => throwErr PyErr.keyErrorExc

/-- Python try/except: canHandle is the tuple of exception classes named by
the except clause; unmatched exceptions re-raise. -/
def pyTry (body : M α) (canHandle : PyErr → Bool) (handler : PyErr → M α) : M α :=
  fun env s =>
    match body env s with
    | (Except.ok a, s1) => (Except.ok a, s1)
    | (Except.error e, s1) =>
      if canHandle e then handler e env s1 else (Except.error e, s1)

/-- Python try/finally: the cleanup runs on both exits; an exception raised
by the cleanup replaces the in-flight one. -/
def pyTryFinally (body : M α) (cleanup : M Unit) : M α :=
  fun env s =>
    match body env s with
    | (Except.ok a, s1) =>
      match cleanup env s1 with
      | (Except.ok _, s2) => (Except.ok a, s2)
      | (Except.error e2, s2) => (Except.error e2, s2)
    | (Except.error e, s1) =>
      match cleanup env s1 with
      | (Except.ok _, s2) => (Except.error e, s2)
      | (Except.error e2, s2) => (Except.error e2, s2)

/-- Exception class tuple (TimeoutException,). -/
def catchTimeout : PyErr → Bool
  | PyErr.timeoutExc => true
  | _ => false

/-- Exception class tuple (TimeoutException, NoSuchElementException). -/
def catchTimeoutOrNoSuch : PyErr → Bool
  | PyErr.timeoutExc => true
  | PyErr.noSuchElementExc => true
  | _ => false

/-- Exception class tuple (NoSuchElementException,). -/
def catchNoSuch : PyErr → Bool
  | PyErr.noSuchElementExc => true
  | _ => false

/-- Exception class Exception: catches every modelled exception. -/
def catchAllExc : PyErr → Bool := fun _ => true

/-- Sequential for-loop over a list, body returning no value. -/
def forEachM (f : α → M Unit) : List α → M Unit
  | [] => pure ()
  | x :: xs => do
    f x
    forEachM f xs

/-- Leading-segment test over character lists. -/
def startsWithChars (needle hay : List Char) : Bool :=
  match needle, hay with
  | [], _ => true
  | _ :: _, [] => false
  | n :: ns, h :: hs => n == h && startsWithChars ns hs

/-- Substring test over character lists. -/
def containsChars (needle : List Char) : List Char → Bool
  | [] => needle.isEmpty
  | h :: hs => startsWithChars needle (h :: hs) || containsChars needle hs

/-- str.lower() of the source, over the character list of a string. -/
def pyLower (s : String) : List Char := s.toList.map Char.toLower

/-- Python membership test pattern in url.lower(): case-insensitive substring
containment (the pattern literals of the source are lowercase already, so
both sides are lowered). -/
def pyIn (needle hay : String) : Bool :=
  containsChars (pyLower needle) (pyLower hay)

/-- Python truthiness of a string: nonempty. -/
def pyTruthyStr (s : String) : Bool := !(s == "")

/-- Python truthiness of a dict: nonempty. -/
def pyTruthyDict (d : List (String × String)) : Bool := !d.isEmpty

/-- Portal kinds distinguished by the platform detection of
start_application. -/
inductive Portal
  | workday
  | greenhouse
  | lever
  | generic
deriving DecidableEq, Repr

/-- Platform detection chain of start_application (source lines 261 to 268):
sequential if/elif on lowercase substring tests, first match wins, fallback
generic. -/
def portalOf (job_url : String) : Portal :=
  if pyIn "workday" job_url then Portal.workday
  else if pyIn "greenhouse.io" job_url || pyIn "boards.greenhouse.io" job_url then
    Portal.greenhouse
  else if pyIn "lever.co" job_url then Portal.lever
  else Portal.generic

/-- Workday autofill anchor, source XPath with data-automation-id
autofillWithResume. -/
def wdAutofillSel : Sel := Sel.byXPath "//a[@data-automation-id=autofillWithResume]"

/-- Workday resume file input, source XPath on input type file with a resume
aria-label. -/
def wdResumeInputSel : Sel :=
  Sel.byXPath "//input[@type=file and contains(@aria-label, resume)]"

/-- Workday next or continue button XPath. -/
def wdNextSel : Sel :=
  Sel.byXPath "//button[contains(@data-automation-id, next)] | //button[contains(@data-automation-id, continue)]"

/-- Greenhouse iframe, By.ID grnhse_iframe. -/
def ghIframeSel : Sel := Sel.byId "grnhse_iframe"

/-- Greenhouse attach button, CSS selector on data-source attach. -/
def ghAttachSel : Sel := Sel.byCss "[data-source=attach]"

/-- Greenhouse file input, CSS selector input type file. -/
def ghFileInputSel : Sel := Sel.byCss "input[type=file]"

/-- Greenhouse upload confirmation, XPath button containing the text
Change. -/
def ghChangeBtnSel : Sel := Sel.byXPath "//button[contains(text(), Change)]"

/-- Greenhouse cover letter text area, By.ID cover_letter_text. -/
def ghCoverSel : Sel := Sel.byId "cover_letter_text"

/-- Greenhouse field_map of the source: resume_data key paired with the By.ID
selector of the same name. -/
def ghFieldList : List (String × Sel) :=
  [("first_name", Sel.byId "first_name"),
   ("last_name", Sel.byId "last_name"),
   ("email", Sel.byId "email"),
   ("phone", Sel.byId "phone")]

/-- Lever resume file input, By.NAME resume. -/
def lvResumeSel : Sel := Sel.byName "resume"

/-- Lever upload confirmation, By.CLASS_NAME filename. -/
def lvFilenameSel : Sel := Sel.byClassName "filename"

/-- Lever field_map of the source. -/
def lvFieldList : List (String × Sel) :=
  [("name", Sel.byName "name"),
   ("email", Sel.byName "email"),
   ("phone", Sel.byName "phone"),
   ("org", Sel.byName "org"),
   ("urls[LinkedIn]", Sel.byName "urls[LinkedIn]")]

/-- Lever comments text area, By.NAME comments. -/
def lvCommentsSel : Sel := Sel.byName "comments"

/-- Generic resume file input XPath of the source. -/
def genResumeSel : Sel :=
  Sel.byXPath "//input[@type=file and (contains(@name, resume) or contains(@id, resume))]"

/-- Generic first-name field XPath of the source. -/
def genFirstNameSel : Sel :=
  Sel.byXPath "//*[self::input or self::textarea][contains(@name, first_name) or contains(@id, first_name)]"

/-- Generic last-name field XPath of the source. -/
def genLastNameSel : Sel :=
  Sel.byXPath "//*[self::input or self::textarea][contains(@name, last_name) or contains(@id, last_name)]"

/-- Generic email field XPath of the source. -/
def genEmailSel : Sel :=
  Sel.byXPath "//*[self::input or self::textarea][contains(@name, email) or contains(@id, email)]"

/-- Generic phone field XPath of the source. -/
def genPhoneSel : Sel :=
  Sel.byXPath "//*[self::input or self::textarea][contains(@name, phone) or contains(@id, phone)]"

/-- Generic cover letter textarea XPath of the source. -/
def genCoverSel : Sel :=
  Sel.byXPath "//*[self::textarea][contains(@name, cover) or contains(@id, cover) or contains(@name, comment)]"

/-- Source function _fill_workday_form: one try over the autofill click, the
resume upload and the wait for the next control, catching TimeoutException
and NoSuchElementException and degrading to console messages. -/
def fill_workday_form (resume_data : List (String × String))
    (_application_text : String) : M Unit := do
  pyPrint "Workday portal detected. Starting form fill process."
  pyTry
    (do
      pyPrint "Looking for Autofill with Resume option..."
      let _ ← waitFor wdAutofillSel
      clickElem wdAutofillSel
      pyPrint "Clicked Autofill with Resume."
      let _ ← waitFor wdResumeInputSel
      let path ← pyGet resume_data "resume_path"
      sendKeys wdResumeInputSel path
      pyPrint ("Resume uploaded from: " ++ path)
      let _ ← waitFor wdNextSel
      pyPrint "Workday has likely parsed the resume. Manual review of the following pages is required.")
    catchTimeoutOrNoSuch
    (fun _ => do
      pyPrint "Could not complete the initial Workday autofill step."
      pyPrint "The process will require full manual completion from here.")

/-- Iframe detection of _fill_greenhouse_form: bounded wait for the iframe
and switch into it, catching only TimeoutException. -/
def ghIframePhase : M Unit :=
  pyTry
    (do
      pyPrint "Checking for Greenhouse iframe..."
      let _ ← waitFor ghIframeSel
      switchFrame ghIframeSel
      pyPrint "Switched to iframe.")
    catchTimeout
    (fun _ => pyPrint "No iframe detected, continuing on main page.")

/-- Resume upload block of _fill_greenhouse_form: inner try catching
TimeoutException and NoSuchElementException. -/
def ghUploadPhase (resume_data : List (String × String)) : M Unit :=
  pyTry
    (do
      pyPrint "Looking for resume upload button..."
      let _ ← waitFor ghAttachSel
      clickElem ghAttachSel
      let _ ← waitFor ghFileInputSel
      let path ← pyGet resume_data "resume_path"
      sendKeys ghFileInputSel path
      let _ ← waitFor ghChangeBtnSel
      pyPrint "Resume uploaded.")
    catchTimeoutOrNoSuch
    (fun _ => pyPrint "Could not upload resume. This step might need manual intervention.")

/-- Loop body of the greenhouse field_map loop: find the field, fill it from
resume_data only when its current value is empty, catch
NoSuchElementException.  A KeyError from the resume_data subscription is not
in the except tuple and propagates. -/
def ghFillOneField (resume_data : List (String × String)) (kv : String × Sel) : M Unit :=
  pyTry
    (do
      let v ← findElement kv.2
      if v = "" then do
        pyPrint ("Filling " ++ kv.1 ++ "...")
        let data ← pyGet resume_data kv.1
        sendKeys kv.2 data
      else
        pure ())
    catchNoSuch
    (fun _ => pyPrint ("Field " ++ kv.1 ++ " not found. Skipping."))

/-- Field loop of _fill_greenhouse_form over field_map. -/
def ghFillFields (resume_data : List (String × String)) : M Unit :=
  forEachM (ghFillOneField resume_data) ghFieldList

/-- Cover letter block of _fill_greenhouse_form, catching
NoSuchElementException. -/
def ghCoverPhase (application_text : String) : M Unit :=
  pyTry
    (do
      pyPrint "Looking for cover letter text area..."
      let _ ← findElement ghCoverSel
      sendKeys ghCoverSel application_text
      pyPrint "Pasted AI-generated application text.")
    catchNoSuch
    (fun _ => pyPrint "Cover letter text area not found. Skipping.")

/-- Body of the try/finally of _fill_greenhouse_form: upload, field fill and
cover letter in sequence. -/
def ghMainPhases (resume_data : List (String × String))
    (application_text : String) : M Unit := do
  ghUploadPhase resume_data
  ghFillFields resume_data
  ghCoverPhase application_text

/-- Source function _fill_greenhouse_form: iframe detection, then a
try/finally whose body is upload, field fill and cover letter, and whose
cleanup always restores the default content. -/
def fill_greenhouse_form (resume_data : List (String × String))
    (application_text : String) : M Unit := do
  pyPrint "Greenhouse portal detected. Starting form fill process."
  ghIframePhase
  pyTryFinally (ghMainPhases resume_data application_text) switchToDefault

/-- Loop body of the lever field_map loop: the source only prints when the
field is present and empty; no fill call is issued (a seam left for manual
completion). -/
def lvProbeOneField (kv : String × Sel) : M Unit :=
  pyTry
    (do
      let v ← findElement kv.2
      if v = "" then pyPrint ("Looking to fill " ++ kv.1 ++ "...")
      else pure ())
    catchNoSuch
    (fun _ => pyPrint ("Field " ++ kv.1 ++ " not found. Skipping."))

/-- Source function _fill_lever_form: upload try, field probe loop and
comments box, all inside one try catching Exception. -/
def fill_lever_form (resume_data : List (String × String))
    (application_text : String) : M Unit := do
  pyPrint "Lever portal detected. Starting form fill process."
  pyTry
    (do
      pyTry
        (do
          pyPrint "Looking for resume upload input..."
          let _ ← waitFor lvResumeSel
          let path ← pyGet resume_data "resume_path"
          sendKeys lvResumeSel path
          let _ ← waitFor lvFilenameSel
          pyPrint "Resume uploaded.")
        catchTimeoutOrNoSuch
        (fun _ => pyPrint "Could not upload resume. This step might need manual intervention.")
      forEachM lvProbeOneField lvFieldList
      pyTry
        (do
          pyPrint "Looking for cover letter/additional info text area..."
          let _ ← findElement lvCommentsSel
          sendKeys lvCommentsSel application_text
          pyPrint "Pasted AI-generated application text.")
        catchNoSuch
        (fun _ => pyPrint "Cover letter/additional info text area not found. Skipping."))
    catchAllExc
    (fun _ => pyPrint "An unexpected error occurred on the Lever form.")

/-- Python dict insertion: an existing key keeps its position and its value
is replaced; a new key is appended. -/
def pyDictInsert {β : Type} : List (String × β) → String → β → List (String × β)
  | [], k, v => [(k, v)]
  | (k0, v0) :: rest, k, v =>
    if k0 = k then (k0, v) :: rest else (k0, v0) :: pyDictInsert rest k v

/-- Accumulating construction of a Python dict from a pair list. -/
def pyDictAux {β : Type} : List (String × β) → List (String × β) → List (String × β)
  | acc, [] => acc
  | acc, kv :: rest => pyDictAux (pyDictInsert acc kv.1 kv.2) rest

/-- Python dict literal built from a pair list, later duplicate keys
replacing the value of earlier ones. -/
def pyDict {β : Type} (l : List (String × β)) : List (String × β) :=
  pyDictAux [] l

/-- Loop body of the generic field loop: the dict key is the text to fill,
the value the selector; fill only when the current value is empty; a missing
element is silently skipped. -/
def genFillOneField (kv : String × Sel) : M Unit :=
  pyTry
    (do
      let v ← findElement kv.2
      if v = "" then do
        pyPrint "Found a generic field and filling it."
        sendKeys kv.2 kv.1
      else pure ())
    catchNoSuch
    (fun _ => pure ())

/-- Resume upload block of _fill_generic_form: inner try catching
TimeoutException and NoSuchElementException. -/
def genUploadPhase (resume_data : List (String × String)) : M Unit :=
  pyTry
    (do
      pyPrint "Attempting to find a resume file input..."
      let _ ← waitFor genResumeSel
      let path ← pyGet resume_data "resume_path"
      sendKeys genResumeSel path
      pyPrint "Found and filled a potential resume input.")
    catchTimeoutOrNoSuch
    (fun _ => pyPrint "Could not find a standard resume upload input.")

/-- Source function _fill_generic_form: upload attempt, then a field map
keyed by the resume values themselves (dict subscription of resume_data
evaluated in source order), then the fill loop. -/
def fill_generic_form (resume_data : List (String × String))
    (application_text : String) : M Unit := do
  pyPrint "Unknown portal type. Attempting generic field fill."
  pyPrint "WARNING: This is a best-effort attempt. Manual review is highly recommended."
  genUploadPhase resume_data
  let fn ← pyGet resume_data "first_name"
  let ln ← pyGet resume_data "last_name"
  let em ← pyGet resume_data "email"
  let ph ← pyGet resume_data "phone"
  forEachM genFillOneField (pyDict
    [(fn, genFirstNameSel), (ln, genLastNameSel), (em, genEmailSel),
     (ph, genPhoneSel), (application_text, genCoverSel)])

/-- Exit path taken by start_application.  The Python function returns None
on every path; the constructor records which return point was reached: the
defensive early return, the normal fall-through after the completion banner,
or the except Exception block. -/
inductive RouterExit
  | missingInput
  | completed
  | criticalError
deriving DecidableEq, Repr

/-- Handler dispatch of start_application, written through portalOf, whose
if/elif chain is the platform detection of the source. -/
def dispatchHandler (job_url : String) (resume_data : List (String × String))
    (application_text : String) : M Unit :=
  match portalOf job_url with
  | Portal.workday => fill_workday_form resume_data application_text
  | Portal.greenhouse => fill_greenhouse_form resume_data application_text
  | Portal.lever => fill_lever_form resume_data application_text
  | Portal.generic => fill_generic_form resume_data application_text

/-- Navigation opening of the router try block: the console message,
driver.get and the settling sleep. -/
def navPhase (job_url : String) : M Unit := do
  pyPrint ("Navigating to job URL: " ++ job_url)
  navigateTo job_url
  sleepSec 3

/-- Body of the router try block: navigate, dispatch on the detected portal,
then the completion banner. -/
def routerTryBody (job_url : String) (resume_data : List (String × String))
    (application_text : String) : M Unit := do
  navPhase job_url
  dispatchHandler job_url resume_data application_text
  pyPrint "Automation complete. The form has been pre-filled."

/-- Source function start_application: the defensive all() check on driver,
job_url, resume_data and application_text, then the try block around
navigation and dispatch, with except Exception saving critical_error.png.
driverPresent models the truthiness of the driver argument. -/
def start_application (driverPresent : Bool) (job_url : String)
    (resume_data : List (String × String)) (application_text : String) :
    M RouterExit :=
  if !(driverPresent && pyTruthyStr job_url && pyTruthyDict resume_data
        && pyTruthyStr application_text) then do
    pyPrint "Error: Missing driver, job_url, resume_data, or application_text."
    pure RouterExit.missingInput
  else
    pyTry
      (do
        routerTryBody job_url resume_data application_text
        pure RouterExit.completed)
      catchAllExc
      (fun _ => do
        pyPrint "A critical error occurred during the automation process."
        saveScreenshot "critical_error.png"
        pyPrint "Saved a screenshot to critical_error.png."
        pure RouterExit.criticalError)

/-- Trace property: every run only appends events to the trace, and every
appended event satisfies P. -/
def EmitsOnly (P : Event → Prop) (m : M α) : Prop :=
  ∀ env s, ∃ new, ((m env s).2).events = s.events ++ new ∧ ∀ e ∈ new, P e

/-- Trace property: every run only appends events to the trace. -/
def Grows (m : M α) : Prop := EmitsOnly (fun _ => True) m

/-- Trace property at a fixed environment: every run appends the event e to
the trace. -/
def EmitsWithE (env : Env) (e : Event) (m : M α) : Prop :=
  ∀ s, ∃ new, ((m env s).2).events = s.events ++ new ∧ e ∈ new

/-- Totality at a fixed environment: no run raises. -/
def OkE (env : Env) (m : M α) : Prop :=
  ∀ s, ∃ a s1, m env s = (Except.ok a, s1)

/-- Field preservation: whenever the element at sel currently holds a
nonempty value, a run leaves that value unchanged and never issues send_keys
on sel. -/
def NoClobber (sel : Sel) (m : M α) : Prop :=
  ∀ env s v, pageLookup s.page sel = some v → v ≠ "" →
    pageLookup ((m env s).2).page sel = some v ∧
    ∃ new, ((m env s).2).events = s.events ++ new ∧
      ∀ t, Event.sendKeysTo sel t ∉ new

/-- Totality guard at a fixed environment: every error a run can raise lies
in the class C. -/
def ThrowsIn (env : Env) (C : PyErr → Bool) (m : M α) : Prop :=
  ∀ s e s1, m env s = (Except.error e, s1) → C e = true

/-- Number of switch-to-default-content calls in a trace. -/
def countDC : List Event → Nat
  | [] => 0
  | e :: rest =>
    (if e = Event.switchToDefaultContent then 1 else 0) + countDC rest

/-- Number of screenshot captures in a trace. -/
def countShots : List Event → Nat
  | [] => 0
  | e :: rest =>
    (match e with
     | Event.screenshot _ => 1
     | _ => 0) + countShots rest

/-- Event predicate: not a driver.quit call. -/
def noQuitEv (e : Event) : Prop := e ≠ Event.quitBrowser

/-- Event predicate: not a screenshot capture. -/
def noShotEv (e : Event) : Prop := ∀ f, e ≠ Event.screenshot f

/-- Event predicate: not a navigation. -/
def noNavEv (e : Event) : Prop := ∀ u, e ≠ Event.navigate u

/-- Event predicate: no interaction with the generic first-name field, the
selector displaced from the generic field map by a key collision. -/
def noFirstNameEv (e : Event) : Prop :=
  e ≠ Event.lookup genFirstNameSel ∧ ∀ t, e ≠ Event.sendKeysTo genFirstNameSel t

/-- Benign environment: no driver call raises, every file exists. -/
def envBenign : Env :=
  { clickRaises := fun _ => false
    sendRaises := fun _ => false
    frameSwitchRaises := false
    navRaises := false
    fileExists := fun _ => true }

/-- Environment whose filesystem holds no file at all: any resume path is
dangling. -/
def envNoFile : Env := { envBenign with fileExists := fun _ => false }

/-- Environment where driver.switch_to.frame raises a WebDriverException:
an exception source inside the greenhouse handler that no handler-level
except clause catches. -/
def envFrameBoom : Env := { envBenign with frameSwitchRaises := true }

/-- Parsed resume record of the source example block, with a resume path
that exists on no filesystem. -/
def rdTest : List (String × String) :=
  [("first_name", "Testy"),
   ("last_name", "McTestface"),
   ("email", "testy.mctestface@example.com"),
   ("phone", "555-123-4567"),
   ("resume_path", "/nonexistent/Resume/New_resume.pdf")]

/-- Resume record in which first and last name are the same string, the key
collision input of the generic field map. -/
def rdCollide : List (String × String) :=
  [("first_name", "Taylor"),
   ("last_name", "Taylor"),
   ("email", "taylor@example.com"),
   ("phone", "555-0000"),
   ("resume_path", "/tmp/resume.pdf")]

/-- Generated application text used in the concrete scenarios. -/
def txtTest : String := "I am excited to contribute my skills to your team."

/-- Greenhouse posting URL of the source example block. -/
def urlGh : String := "https://boards.greenhouse.io/debricked/jobs/4006096007"

/-- Blank page: no element ever appears, every lookup times out. -/
def stBlank : St := { page := [], events := [] }

/-- Greenhouse page without an iframe where the attach flow is fully
present: attach button, file input and upload confirmation. -/
def stGhPage : St :=
  { page := [(ghAttachSel, ""), (ghFileInputSel, ""), (ghChangeBtnSel, "")]
    events := [] }

/-- Page showing only the greenhouse iframe, used with the frame-switch
fault injection. -/
def stFramePage : St := { page := [(ghIframeSel, "")], events := [] }

/-- Greenhouse page whose phone field was already auto-filled by the portal
from the parsed resume. -/
def stPrefilled : St :=
  { page := [(Sel.byId "phone", "555-999-0000"), (Sel.byId "email", "")]
    events := [] }

/-- State after the navigation phase of the frame-fault scenario. -/
def stNavDone : St :=
  { page := [(ghIframeSel, "")]
    events := [Event.echo ("Navigating to job URL: " ++ urlGh), Event.navigate urlGh] }

/-- State at which the injected frame-switch exception leaves the greenhouse
handler in the frame-fault scenario. -/
def stBoomDone : St :=
  { page := [(ghIframeSel, "")]
    events := [Event.echo ("Navigating to job URL: " ++ urlGh), Event.navigate urlGh,
               Event.echo "Greenhouse portal detected. Starting form fill process.",
               Event.echo "Checking for Greenhouse iframe...",
               Event.lookup ghIframeSel, Event.switchToFrame ghIframeSel] }

theorem bind_run (m : M α) (f : α → M β) (env : Env) (s : St) :
    (m >>= f) env s =
      match m env s with
      | (Except.ok a, s1) => f a env s1
      | (Except.error e, s1) => (Except.error e, s1) := rfl

theorem pure_run (a : α) (env : Env) (s : St) :
    (pure a : M α) env s = (Except.ok a, s) := rfl

theorem bind_run_ok {m : M α} {env : Env} {s : St} {a : α} {s1 : St}
    (f : α → M β) (h : m env s = (Except.ok a, s1)) :
    (m >>= f) env s = f a env s1 := by
  rw [bind_run, h]

theorem bind_run_error {m : M α} {env : Env} {s : St} {e : PyErr} {s1 : St}
    (f : α → M β) (h : m env s = (Except.error e, s1)) :
    (m >>= f) env s = (Except.error e, s1) := by
  rw [bind_run, h]

theorem emit_run (e : Event) (env : Env) (s : St) :
    emit e env s = (Except.ok (), { s with events := s.events ++ [e] }) := rfl

theorem pyPrint_run (msg : String) (env : Env) (s : St) :
    pyPrint msg env s =
      (Except.ok (), { s with events := s.events ++ [Event.echo msg] }) := rfl

theorem waitFor_run_some {s : St} {sel : Sel} {v : String} (env : Env)
    (h : pageLookup s.page sel = some v) :
    waitFor sel env s =
      (Except.ok v, { s with events := s.events ++ [Event.lookup sel] }) := by
  unfold waitFor
  rw [h]

theorem waitFor_run_none {s : St} {sel : Sel} (env : Env)
    (h : pageLookup s.page sel = none) :
    waitFor sel env s =
      (Except.error PyErr.timeoutExc,
       { s with events := s.events ++ [Event.lookup sel] }) := by
  unfold waitFor
  rw [h]

theorem findElement_run_some {s : St} {sel : Sel} {v : String} (env : Env)
    (h : pageLookup s.page sel = some v) :
    findElement sel env s =
      (Except.ok v, { s with events := s.events ++ [Event.lookup sel] }) := by
  unfold findElement
  rw [h]

theorem findElement_run_none {s : St} {sel : Sel} (env : Env)
    (h : pageLookup s.page sel = none) :
    findElement sel env s =
      (Except.error PyErr.noSuchElementExc,
       { s with events := s.events ++ [Event.lookup sel] }) := by
  unfold findElement
  rw [h]

theorem clickElem_run_ok {env : Env} {sel : Sel} (s : St)
    (h : env.clickRaises sel = false) :
    clickElem sel env s =
      (Except.ok (), { s with events := s.events ++ [Event.clickOn sel] }) := by
  unfold clickElem
  rw [h]
  simp

theorem sendKeys_run_ok {env : Env} {sel : Sel} (s : St) (text : String)
    (h : env.sendRaises sel = false) :
    sendKeys sel text env s =
      (Except.ok (),
       { page := pageSend s.page sel text
         events := s.events ++ [Event.sendKeysTo sel text] }) := by
  unfold sendKeys
  rw [h]
  simp

theorem switchFrame_run_boom {env : Env} (sel : Sel) (s : St)
    (h : env.frameSwitchRaises = true) :
    switchFrame sel env s =
      (Except.error PyErr.otherExc,
       { s with events := s.events ++ [Event.switchToFrame sel] }) := by
  unfold switchFrame
  rw [h]
  simp

theorem switchFrame_run_ok {env : Env} (sel : Sel) (s : St)
    (h : env.frameSwitchRaises = false) :
    switchFrame sel env s =
      (Except.ok (),
       { s with events := s.events ++ [Event.switchToFrame sel] }) := by
  unfold switchFrame
  rw [h]
  simp

theorem navigateTo_run_ok {env : Env} (url : String) (s : St)
    (h : env.navRaises = false) :
    navigateTo url env s =
      (Except.ok (), { s with events := s.events ++ [Event.navigate url] }) := by
  unfold navigateTo
  rw [h]
  simp

theorem pyGet_run_some {d : List (String × String)} {k : String} {v : String}
    (env : Env) (s : St) (h : alistFind d k = some v) :
    pyGet d k env s = (Except.ok v, s) := by
  unfold pyGet
  rw [h]
  rfl

theorem pyGet_run_none {d : List (String × String)} {k : String}
    (env : Env) (s : St) (h : alistFind d k = none) :
    pyGet d k env s = (Except.error PyErr.keyErrorExc, s) := by
  unfold pyGet
  rw [h]
  rfl

theorem pyTry_run_ok {body : M α} {env : Env} {s : St} {a : α} {s1 : St}
    (canHandle : PyErr → Bool) (handler : PyErr → M α)
    (h : body env s = (Except.ok a, s1)) :
    pyTry body canHandle handler env s = (Except.ok a, s1) := by
  unfold pyTry
  rw [h]

theorem pyTry_run_caught {body : M α} {env : Env} {s : St} {e : PyErr} {s1 : St}
    {canHandle : PyErr → Bool} (handler : PyErr → M α)
    (h : body env s = (Except.error e, s1)) (hc : canHandle e = true) :
    pyTry body canHandle handler env s = handler e env s1 := by
  unfold pyTry
  rw [h]
  simp [hc]

theorem pyTry_run_uncaught {body : M α} {env : Env} {s : St} {e : PyErr} {s1 : St}
    {canHandle : PyErr → Bool} (handler : PyErr → M α)
    (h : body env s = (Except.error e, s1)) (hc : canHandle e = false) :
    pyTry body canHandle handler env s = (Except.error e, s1) := by
  unfold pyTry
  rw [h]
  simp [hc]

theorem pyTryFinally_switchToDefault_run (m : M α) (env : Env) (s : St) :
    pyTryFinally m switchToDefault env s =
      ((m env s).1,
       { (m env s).2 with events := ((m env s).2).events ++ [Event.switchToDefaultContent] }) := by
  unfold pyTryFinally
  rcases h : m env s with ⟨r, s1⟩
  cases r <;> rfl

theorem emitsOnly_pure {P : Event → Prop} (a : α) : EmitsOnly P (pure a : M α) := by
  intro env s
  exact ⟨[], by simp [pure_run], by simp⟩

theorem emitsOnly_throwErr {P : Event → Prop} (e : PyErr) :
    EmitsOnly P (throwErr e : M α) := by
  intro env s
  exact ⟨[], by simp [throwErr], by simp⟩

theorem emitsOnly_emit {P : Event → Prop} {e : Event} (hP : P e) :
    EmitsOnly P (emit e) := by
  intro env s
  exact ⟨[e], by simp [emit_run], by simpa⟩

theorem emitsOnly_pyPrint {P : Event → Prop} {msg : String}
    (hP : P (Event.echo msg)) : EmitsOnly P (pyPrint msg) :=
  emitsOnly_emit hP

theorem emitsOnly_switchToDefault {P : Event → Prop}
    (hP : P Event.switchToDefaultContent) : EmitsOnly P switchToDefault :=
  emitsOnly_emit hP

theorem emitsOnly_saveScreenshot {P : Event → Prop} {f : String}
    (hP : P (Event.screenshot f)) : EmitsOnly P (saveScreenshot f) :=
  emitsOnly_emit hP

theorem emitsOnly_sleepSec {P : Event → Prop} (n : Nat) :
    EmitsOnly P (sleepSec n) :=
  emitsOnly_pure ()

theorem emitsOnly_waitFor {P : Event → Prop} {sel : Sel}
    (hP : P (Event.lookup sel)) : EmitsOnly P (waitFor sel) := by
  intro env s
  refine ⟨[Event.lookup sel], ?_, by simpa⟩
  unfold waitFor
  rcases pageLookup s.page sel with _ | v <;> rfl

theorem emitsOnly_findElement {P : Event → Prop} {sel : Sel}
    (hP : P (Event.lookup sel)) : EmitsOnly P (findElement sel) := by
  intro env s
  refine ⟨[Event.lookup sel], ?_, by simpa⟩
  unfold findElement
  rcases pageLookup s.page sel with _ | v <;> rfl

theorem emitsOnly_clickElem {P : Event → Prop} {sel : Sel}
    (hP : P (Event.clickOn sel)) : EmitsOnly P (clickElem sel) := by
  intro env s
  refine ⟨[Event.clickOn sel], ?_, by simpa⟩
  unfold clickElem
  rcases env.clickRaises sel with _ | _ <;> rfl

theorem emitsOnly_sendKeys {P : Event → Prop} {sel : Sel} {t : String}
    (hP : P (Event.sendKeysTo sel t)) : EmitsOnly P (sendKeys sel t) := by
  intro env s
  refine ⟨[Event.sendKeysTo sel t], ?_, by simpa⟩
  unfold sendKeys
  rcases env.sendRaises sel with _ | _ <;> rfl

theorem emitsOnly_switchFrame {P : Event → Prop} {sel : Sel}
    (hP : P (Event.switchToFrame sel)) : EmitsOnly P (switchFrame sel) := by
  intro env s
  refine ⟨[Event.switchToFrame sel], ?_, by simpa⟩
  unfold switchFrame
  rcases env.frameSwitchRaises with _ | _ <;> rfl

theorem emitsOnly_navigateTo {P : Event → Prop} {url : String}
    (hP : P (Event.navigate url)) : EmitsOnly P (navigateTo url) := by
  intro env s
  refine ⟨[Event.navigate url], ?_, by simpa⟩
  unfold navigateTo
  rcases env.navRaises with _ | _ <;> rfl

theorem emitsOnly_pyGet {P : Event → Prop} (d : List (String × String))
    (k : String) : EmitsOnly P (pyGet d k) := by
  intro env s
  refine ⟨[], ?_, by simp⟩
  unfold pyGet
  rcases h : alistFind d k with _ | v <;> simp [h, pure_run, throwErr]

theorem emitsOnly_bind {P : Event → Prop} {m : M α} {f : α → M β}
    (hm : EmitsOnly P m) (hf : ∀ a, EmitsOnly P (f a)) :
    EmitsOnly P (m >>= f) := by
  intro env s
  rcases hm env s with ⟨n1, h1, hp1⟩
  rcases hres : m env s with ⟨r, s1⟩
  rw [hres] at h1
  cases r with
  | ok a =>
    rcases hf a env s1 with ⟨n2, h2, hp2⟩
    refine ⟨n1 ++ n2, ?_, ?_⟩
    · rw [bind_run_ok f hres, h2, h1, List.append_assoc]
    · intro e he
      rcases List.mem_append.mp he with h | h
      · exact hp1 e h
      · exact hp2 e h
  | error e =>
    refine ⟨n1, ?_, hp1⟩
    rw [bind_run_error f hres]
    exact h1

theorem emitsOnly_pyTry {P : Event → Prop} {body : M α}
    {canHandle : PyErr → Bool} {handler : PyErr → M α}
    (hb : EmitsOnly P body) (hh : ∀ e, EmitsOnly P (handler e)) :
    EmitsOnly P (pyTry body canHandle handler) := by
  intro env s
  rcases hb env s with ⟨n1, h1, hp1⟩
  rcases hres : body env s with ⟨r, s1⟩
  rw [hres] at h1
  cases r with
  | ok a =>
    refine ⟨n1, ?_, hp1⟩
    rw [pyTry_run_ok canHandle handler hres]
    exact h1
  | error e =>
    by_cases hc : canHandle e = true
    · rcases hh e env s1 with ⟨n2, h2, hp2⟩
      refine ⟨n1 ++ n2, ?_, ?_⟩
      · rw [pyTry_run_caught handler hres hc, h2, h1, List.append_assoc]
      · intro x hx
        rcases List.mem_append.mp hx with h | h
        · exact hp1 x h
        · exact hp2 x h
    · refine ⟨n1, ?_, hp1⟩
      rw [pyTry_run_uncaught handler hres (Bool.not_eq_true _ ▸ hc)]
      exact h1

theorem emitsOnly_pyTryFinally {P : Event → Prop} {body : M α}
    {cleanup : M Unit} (hb : EmitsOnly P body) (hc : EmitsOnly P cleanup) :
    EmitsOnly P (pyTryFinally body cleanup) := by
  intro env s
  rcases hb env s with ⟨n1, h1, hp1⟩
  rcases hres : body env s with ⟨r, s1⟩
  rw [hres] at h1
  rcases hc env s1 with ⟨n2, h2, hp2⟩
  rcases hcln : cleanup env s1 with ⟨r2, s2⟩
  rw [hcln] at h2
  have hmem : ∀ e ∈ n1 ++ n2, P e := by
    intro x hx
    rcases List.mem_append.mp hx with h | h
    · exact hp1 x h
    · exact hp2 x h
  have hev : s2.events = s.events ++ (n1 ++ n2) := by
    rw [h2, h1, List.append_assoc]
  cases r with
  | ok a =>
    cases r2 with
    | ok u =>
      refine ⟨n1 ++ n2, ?_, hmem⟩
      unfold pyTryFinally
      simp only [hres, hcln]
      exact hev
    | error e2 =>
      refine ⟨n1 ++ n2, ?_, hmem⟩
      unfold pyTryFinally
      simp only [hres, hcln]
      exact hev
  | error e =>
    cases r2 with
    | ok u =>
      refine ⟨n1 ++ n2, ?_, hmem⟩
      unfold pyTryFinally
      simp only [hres, hcln]
      exact hev
    | error e2 =>
      refine ⟨n1 ++ n2, ?_, hmem⟩
      unfold pyTryFinally
      simp only [hres, hcln]
      exact hev

theorem emitsOnly_forEachM {P : Event → Prop} {f : α → M Unit}
    {l : List α} (hf : ∀ x ∈ l, EmitsOnly P (f x)) :
    EmitsOnly P (forEachM f l) := by
  induction l with
  | nil => exact emitsOnly_pure ()
  | cons x xs ih =>
    have hx : EmitsOnly P (f x) := hf x (by simp)
    have hxs : EmitsOnly P (forEachM f xs) :=
      ih (fun y hy => hf y (by simp [hy]))
    exact emitsOnly_bind hx (fun _ => hxs)

theorem emitsOnly_mono {P Q : Event → Prop} {m : M α}
    (hPQ : ∀ e, P e → Q e) (hm : EmitsOnly P m) : EmitsOnly Q m := by
  intro env s
  rcases hm env s with ⟨n1, h1, hp1⟩
  exact ⟨n1, h1, fun e he => hPQ e (hp1 e he)⟩

theorem throwsIn_pure (env : Env) (C : PyErr → Bool) (a : α) :
    ThrowsIn env C (pure a : M α) := by
  intro s e s1 h
  simp [pure_run] at h

theorem throwsIn_emit (env : Env) (C : PyErr → Bool) (e : Event) :
    ThrowsIn env C (emit e) := by
  intro s e1 s1 h
  simp [emit_run] at h

theorem throwsIn_pyPrint (env : Env) (C : PyErr → Bool) (msg : String) :
    ThrowsIn env C (pyPrint msg) :=
  throwsIn_emit env C (Event.echo msg)

theorem throwsIn_waitFor (env : Env) {C : PyErr → Bool} (sel : Sel)
    (hC : C PyErr.timeoutExc = true) : ThrowsIn env C (waitFor sel) := by
  intro s e s1 h
  unfold waitFor at h
  rcases hp : pageLookup s.page sel with _ | v <;> rw [hp] at h <;>
    simp at h
  rw [← h.1]
  exact hC

theorem throwsIn_findElement (env : Env) {C : PyErr → Bool} (sel : Sel)
    (hC : C PyErr.noSuchElementExc = true) : ThrowsIn env C (findElement sel) := by
  intro s e s1 h
  unfold findElement at h
  rcases hp : pageLookup s.page sel with _ | v <;> rw [hp] at h <;>
    simp at h
  rw [← h.1]
  exact hC

theorem throwsIn_clickElem {env : Env} (C : PyErr → Bool) {sel : Sel}
    (h : env.clickRaises sel = false) : ThrowsIn env C (clickElem sel) := by
  intro s e s1 hrun
  rw [clickElem_run_ok s h] at hrun
  simp at hrun

theorem throwsIn_sendKeys {env : Env} (C : PyErr → Bool) {sel : Sel}
    (t : String) (h : env.sendRaises sel = false) :
    ThrowsIn env C (sendKeys sel t) := by
  intro s e s1 hrun
  rw [sendKeys_run_ok s t h] at hrun
  simp at hrun

theorem throwsIn_pyGet {env : Env} (C : PyErr → Bool)
    {d : List (String × String)} {k : String} {v : String}
    (h : alistFind d k = some v) : ThrowsIn env C (pyGet d k) := by
  intro s e s1 hrun
  rw [pyGet_run_some env s h] at hrun
  simp at hrun

theorem throwsIn_bind {env : Env} {C : PyErr → Bool} {m : M α} {f : α → M β}
    (hm : ThrowsIn env C m) (hf : ∀ a, ThrowsIn env C (f a)) :
    ThrowsIn env C (m >>= f) := by
  intro s e s1 h
  rcases hres : m env s with ⟨r, sm⟩
  cases r with
  | ok a =>
    rw [bind_run_ok f hres] at h
    exact hf a sm e s1 h
  | error e1 =>
    rw [bind_run_error f hres] at h
    simp at h
    exact h.1 ▸ hm s e1 sm hres

theorem okE_pyTry {env : Env} {body : M α} {canHandle : PyErr → Bool}
    {handler : PyErr → M α} (hb : ThrowsIn env canHandle body)
    (hh : ∀ e, OkE env (handler e)) :
    OkE env (pyTry body canHandle handler) := by
  intro s
  rcases hres : body env s with ⟨r, s1⟩
  cases r with
  | ok a => exact ⟨a, s1, pyTry_run_ok canHandle handler hres⟩
  | error e =>
    have hc : canHandle e = true := hb s e s1 hres
    rcases hh e s1 with ⟨a, s2, h2⟩
    exact ⟨a, s2, by rw [pyTry_run_caught handler hres hc]; exact h2⟩

theorem okE_pure (env : Env) (a : α) : OkE env (pure a : M α) :=
  fun s => ⟨a, s, pure_run a env s⟩

theorem okE_emit (env : Env) (e : Event) : OkE env (emit e) :=
  fun s => ⟨(), _, emit_run e env s⟩

theorem okE_pyPrint (env : Env) (msg : String) : OkE env (pyPrint msg) :=
  okE_emit env (Event.echo msg)

theorem okE_bind {env : Env} {m : M α} {f : α → M β}
    (hm : OkE env m) (hf : ∀ a, OkE env (f a)) : OkE env (m >>= f) := by
  intro s
  rcases hm s with ⟨a, s1, h1⟩
  rcases hf a s1 with ⟨b, s2, h2⟩
  exact ⟨b, s2, by rw [bind_run_ok f h1]; exact h2⟩

theorem emitsWithE_waitFor (env : Env) (sel : Sel) :
    EmitsWithE env (Event.lookup sel) (waitFor sel) := by
  intro s
  refine ⟨[Event.lookup sel], ?_, by simp⟩
  unfold waitFor
  rcases pageLookup s.page sel with _ | v <;> rfl

theorem emitsWithE_findElement (env : Env) (sel : Sel) :
    EmitsWithE env (Event.lookup sel) (findElement sel) := by
  intro s
  refine ⟨[Event.lookup sel], ?_, by simp⟩
  unfold findElement
  rcases pageLookup s.page sel with _ | v <;> rfl

theorem emitsWithE_bind_left {env : Env} {e : Event} {m : M α} {f : α → M β}
    (hm : EmitsWithE env e m) (hf : ∀ a, Grows (f a)) :
    EmitsWithE env e (m >>= f) := by
  intro s
  rcases hm s with ⟨n1, h1, hmem⟩
  rcases hres : m env s with ⟨r, s1⟩
  rw [hres] at h1
  cases r with
  | ok a =>
    rcases hf a env s1 with ⟨n2, h2, _⟩
    refine ⟨n1 ++ n2, ?_, by simp [hmem]⟩
    rw [bind_run_ok f hres, h2, h1, List.append_assoc]
  | error e1 =>
    refine ⟨n1, ?_, hmem⟩
    rw [bind_run_error f hres]
    exact h1

theorem emitsWithE_bind_right {env : Env} {e : Event} {m : M α} {f : α → M β}
    (hok : OkE env m) (hg : Grows m) (hf : ∀ a, EmitsWithE env e (f a)) :
    EmitsWithE env e (m >>= f) := by
  intro s
  rcases hok s with ⟨a, s1, h1⟩
  rcases hg env s with ⟨n1, hev1, _⟩
  rw [h1] at hev1
  rcases hf a s1 with ⟨n2, h2, hmem⟩
  refine ⟨n1 ++ n2, ?_, by simp [hmem]⟩
  rw [bind_run_ok f h1, h2, hev1, List.append_assoc]

theorem emitsWithE_pyTry {env : Env} {e : Event} {body : M α}
    {canHandle : PyErr → Bool} {handler : PyErr → M α}
    (hb : EmitsWithE env e body) (hh : ∀ e1, Grows (handler e1)) :
    EmitsWithE env e (pyTry body canHandle handler) := by
  intro s
  rcases hb s with ⟨n1, h1, hmem⟩
  rcases hres : body env s with ⟨r, s1⟩
  rw [hres] at h1
  cases r with
  | ok a =>
    refine ⟨n1, ?_, hmem⟩
    rw [pyTry_run_ok canHandle handler hres]
    exact h1
  | error e1 =>
    by_cases hc : canHandle e1 = true
    · rcases hh e1 env s1 with ⟨n2, h2, _⟩
      refine ⟨n1 ++ n2, ?_, by simp [hmem]⟩
      rw [pyTry_run_caught handler hres hc, h2, h1, List.append_assoc]
    · refine ⟨n1, ?_, hmem⟩
      rw [pyTry_run_uncaught handler hres (Bool.not_eq_true _ ▸ hc)]
      exact h1

theorem emitsWithE_pyTryFinally_switchToDefault {env : Env} {e : Event}
    {body : M α} (hb : EmitsWithE env e body) :
    EmitsWithE env e (pyTryFinally body switchToDefault) := by
  intro s
  rcases hb s with ⟨n1, h1, hmem⟩
  refine ⟨n1 ++ [Event.switchToDefaultContent], ?_, by simp [hmem]⟩
  rw [pyTryFinally_switchToDefault_run]
  rw [h1, List.append_assoc]

theorem emitsOnly_fill_workday {P : Event → Prop}
    (hEcho : ∀ msg, P (Event.echo msg))
    (hLook : ∀ sel, P (Event.lookup sel))
    (hClick : ∀ sel, P (Event.clickOn sel))
    (hSend : ∀ sel t, P (Event.sendKeysTo sel t))
    (rd : List (String × String)) (txt : String) :
    EmitsOnly P (fill_workday_form rd txt) := by
  unfold fill_workday_form
  apply emitsOnly_bind (emitsOnly_pyPrint (hEcho _))
  intro _
  apply emitsOnly_pyTry
  · apply emitsOnly_bind (emitsOnly_pyPrint (hEcho _))
    intro _
    apply emitsOnly_bind (emitsOnly_waitFor (hLook _))
    intro _
    apply emitsOnly_bind (emitsOnly_clickElem (hClick _))
    intro _
    apply emitsOnly_bind (emitsOnly_pyPrint (hEcho _))
    intro _
    apply emitsOnly_bind (emitsOnly_waitFor (hLook _))
    intro _
    apply emitsOnly_bind (emitsOnly_pyGet _ _)
    intro path
    apply emitsOnly_bind (emitsOnly_sendKeys (hSend _ _))
    intro _
    apply emitsOnly_bind (emitsOnly_pyPrint (hEcho _))
    intro _
    apply emitsOnly_bind (emitsOnly_waitFor (hLook _))
    intro _
    exact emitsOnly_pyPrint (hEcho _)
  · intro e
    apply emitsOnly_bind (emitsOnly_pyPrint (hEcho _))
    intro _
    exact emitsOnly_pyPrint (hEcho _)

theorem emitsOnly_ghIframePhase {P : Event → Prop}
    (hEcho : ∀ msg, P (Event.echo msg))
    (hLook : ∀ sel, P (Event.lookup sel))
    (hFrame : ∀ sel, P (Event.switchToFrame sel)) :
    EmitsOnly P ghIframePhase := by
  unfold ghIframePhase
  apply emitsOnly_pyTry
  · apply emitsOnly_bind (emitsOnly_pyPrint (hEcho _))
    intro _
    apply emitsOnly_bind (emitsOnly_waitFor (hLook _))
    intro _
    apply emitsOnly_bind (emitsOnly_switchFrame (hFrame _))
    intro _
    exact emitsOnly_pyPrint (hEcho _)
  · intro e
    exact emitsOnly_pyPrint (hEcho _)

theorem emitsOnly_ghUploadPhase {P : Event → Prop}
    (hEcho : ∀ msg, P (Event.echo msg))
    (hLook : ∀ sel, P (Event.lookup sel))
    (hClick : ∀ sel, P (Event.clickOn sel))
    (hSend : ∀ sel t, P (Event.sendKeysTo sel t))
    (rd : List (String × String)) :
    EmitsOnly P (ghUploadPhase rd) := by
  unfold ghUploadPhase
  apply emitsOnly_pyTry
  · apply emitsOnly_bind (emitsOnly_pyPrint (hEcho _))
    intro _
    apply emitsOnly_bind (emitsOnly_waitFor (hLook _))
    intro _
    apply emitsOnly_bind (emitsOnly_clickElem (hClick _))
    intro _
    apply emitsOnly_bind (emitsOnly_waitFor (hLook _))
    intro _
    apply emitsOnly_bind (emitsOnly_pyGet _ _)
    intro path
    apply emitsOnly_bind (emitsOnly_sendKeys (hSend _ _))
    intro _
    apply emitsOnly_bind (emitsOnly_waitFor (hLook _))
    intro _
    exact emitsOnly_pyPrint (hEcho _)
  · intro e
    exact emitsOnly_pyPrint (hEcho _)

theorem emitsOnly_ghFillOneField {P : Event → Prop}
    {kv : String × Sel} (hEcho : ∀ msg, P (Event.echo msg))
    (hLook : P (Event.lookup kv.2))
    (hSend : ∀ t, P (Event.sendKeysTo kv.2 t))
    (rd : List (String × String)) :
    EmitsOnly P (ghFillOneField rd kv) := by
  unfold ghFillOneField
  apply emitsOnly_pyTry
  · apply emitsOnly_bind (emitsOnly_findElement hLook)
    intro v
    by_cases hv : v = ""
    · rw [if_pos hv]
      apply emitsOnly_bind (emitsOnly_pyPrint (hEcho _))
      intro _
      apply emitsOnly_bind (emitsOnly_pyGet _ _)
      intro data
      exact emitsOnly_sendKeys (hSend _)
    · rw [if_neg hv]
      exact emitsOnly_pure ()
  · intro e
    exact emitsOnly_pyPrint (hEcho _)

theorem emitsOnly_ghFillFields {P : Event → Prop}
    (hEcho : ∀ msg, P (Event.echo msg))
    (hLook : ∀ sel, P (Event.lookup sel))
    (hSend : ∀ sel t, P (Event.sendKeysTo sel t))
    (rd : List (String × String)) :
    EmitsOnly P (ghFillFields rd) := by
  unfold ghFillFields
  apply emitsOnly_forEachM
  intro kv _
  exact emitsOnly_ghFillOneField hEcho (hLook _) (hSend _) rd

theorem emitsOnly_ghCoverPhase {P : Event → Prop}
    (hEcho : ∀ msg, P (Event.echo msg))
    (hLook : ∀ sel, P (Event.lookup sel))
    (hSend : ∀ sel t, P (Event.sendKeysTo sel t))
    (txt : String) :
    EmitsOnly P (ghCoverPhase txt) := by
  unfold ghCoverPhase
  apply emitsOnly_pyTry
  · apply emitsOnly_bind (emitsOnly_pyPrint (hEcho _))
    intro _
    apply emitsOnly_bind (emitsOnly_findElement (hLook _))
    intro _
    apply emitsOnly_bind (emitsOnly_sendKeys (hSend _ _))
    intro _
    exact emitsOnly_pyPrint (hEcho _)
  · intro e
    exact emitsOnly_pyPrint (hEcho _)

theorem emitsOnly_ghMainPhases {P : Event → Prop}
    (hEcho : ∀ msg, P (Event.echo msg))
    (hLook : ∀ sel, P (Event.lookup sel))
    (hClick : ∀ sel, P (Event.clickOn sel))
    (hSend : ∀ sel t, P (Event.sendKeysTo sel t))
    (rd : List (String × String)) (txt : String) :
    EmitsOnly P (ghMainPhases rd txt) := by
  unfold ghMainPhases
  apply emitsOnly_bind (emitsOnly_ghUploadPhase hEcho hLook hClick hSend rd)
  intro _
  apply emitsOnly_bind (emitsOnly_ghFillFields hEcho hLook hSend rd)
  intro _
  exact emitsOnly_ghCoverPhase hEcho hLook hSend txt

theorem emitsOnly_fill_greenhouse {P : Event → Prop}
    (hEcho : ∀ msg, P (Event.echo msg))
    (hLook : ∀ sel, P (Event.lookup sel))
    (hClick : ∀ sel, P (Event.clickOn sel))
    (hSend : ∀ sel t, P (Event.sendKeysTo sel t))
    (hFrame : ∀ sel, P (Event.switchToFrame sel))
    (hDC : P Event.switchToDefaultContent)
    (rd : List (String × String)) (txt : String) :
    EmitsOnly P (fill_greenhouse_form rd txt) := by
  unfold fill_greenhouse_form
  apply emitsOnly_bind (emitsOnly_pyPrint (hEcho _))
  intro _
  apply emitsOnly_bind (emitsOnly_ghIframePhase hEcho hLook hFrame)
  intro _
  exact emitsOnly_pyTryFinally
    (emitsOnly_ghMainPhases hEcho hLook hClick hSend rd txt)
    (emitsOnly_switchToDefault hDC)

theorem emitsOnly_lvProbeOneField {P : Event → Prop}
    {kv : String × Sel} (hEcho : ∀ msg, P (Event.echo msg))
    (hLook : P (Event.lookup kv.2)) :
    EmitsOnly P (lvProbeOneField kv) := by
  unfold lvProbeOneField
  apply emitsOnly_pyTry
  · apply emitsOnly_bind (emitsOnly_findElement hLook)
    intro v
    by_cases hv : v = ""
    · rw [if_pos hv]
      exact emitsOnly_pyPrint (hEcho _)
    · rw [if_neg hv]
      exact emitsOnly_pure ()
  · intro e
    exact emitsOnly_pyPrint (hEcho _)

theorem emitsOnly_fill_lever {P : Event → Prop}
    (hEcho : ∀ msg, P (Event.echo msg))
    (hLook : ∀ sel, P (Event.lookup sel))
    (hSend : ∀ sel t, P (Event.sendKeysTo sel t))
    (rd : List (String × String)) (txt : String) :
    EmitsOnly P (fill_lever_form rd txt) := by
  unfold fill_lever_form
  apply emitsOnly_bind (emitsOnly_pyPrint (hEcho _))
  intro _
  apply emitsOnly_pyTry
  · apply emitsOnly_bind
    · apply emitsOnly_pyTry
      · apply emitsOnly_bind (emitsOnly_pyPrint (hEcho _))
        intro _
        apply emitsOnly_bind (emitsOnly_waitFor (hLook _))
        intro _
        apply emitsOnly_bind (emitsOnly_pyGet _ _)
        intro path
        apply emitsOnly_bind (emitsOnly_sendKeys (hSend _ _))
        intro _
        apply emitsOnly_bind (emitsOnly_waitFor (hLook _))
        intro _
        exact emitsOnly_pyPrint (hEcho _)
      · intro e
        exact emitsOnly_pyPrint (hEcho _)
    · intro _
      apply emitsOnly_bind
      · apply emitsOnly_forEachM
        intro kv _
        exact emitsOnly_lvProbeOneField hEcho (hLook _)
      · intro _
        apply emitsOnly_pyTry
        · apply emitsOnly_bind (emitsOnly_pyPrint (hEcho _))
          intro _
          apply emitsOnly_bind (emitsOnly_findElement (hLook _))
          intro _
          apply emitsOnly_bind (emitsOnly_sendKeys (hSend _ _))
          intro _
          exact emitsOnly_pyPrint (hEcho _)
        · intro e
          exact emitsOnly_pyPrint (hEcho _)
  · intro e
    exact emitsOnly_pyPrint (hEcho _)

theorem emitsOnly_genFillOneField {P : Event → Prop}
    {kv : String × Sel} (hEcho : ∀ msg, P (Event.echo msg))
    (hLook : P (Event.lookup kv.2))
    (hSend : P (Event.sendKeysTo kv.2 kv.1)) :
    EmitsOnly P (genFillOneField kv) := by
  unfold genFillOneField
  apply emitsOnly_pyTry
  · apply emitsOnly_bind (emitsOnly_findElement hLook)
    intro v
    by_cases hv : v = ""
    · rw [if_pos hv]
      apply emitsOnly_bind (emitsOnly_pyPrint (hEcho _))
      intro _
      exact emitsOnly_sendKeys hSend
    · rw [if_neg hv]
      exact emitsOnly_pure ()
  · intro e
    exact emitsOnly_pure ()

theorem emitsOnly_genUploadPhase {P : Event → Prop}
    (hEcho : ∀ msg, P (Event.echo msg))
    (hLook : P (Event.lookup genResumeSel))
    (hSend : ∀ t, P (Event.sendKeysTo genResumeSel t))
    (rd : List (String × String)) :
    EmitsOnly P (genUploadPhase rd) := by
  unfold genUploadPhase
  apply emitsOnly_pyTry
  · apply emitsOnly_bind (emitsOnly_pyPrint (hEcho _))
    intro _
    apply emitsOnly_bind (emitsOnly_waitFor hLook)
    intro _
    apply emitsOnly_bind (emitsOnly_pyGet _ _)
    intro path
    apply emitsOnly_bind (emitsOnly_sendKeys (hSend _))
    intro _
    exact emitsOnly_pyPrint (hEcho _)
  · intro e
    exact emitsOnly_pyPrint (hEcho _)

theorem emitsOnly_fill_generic {P : Event → Prop}
    (hEcho : ∀ msg, P (Event.echo msg))
    (hLook : ∀ sel, P (Event.lookup sel))
    (hSend : ∀ sel t, P (Event.sendKeysTo sel t))
    (rd : List (String × String)) (txt : String) :
    EmitsOnly P (fill_generic_form rd txt) := by
  unfold fill_generic_form
  apply emitsOnly_bind (emitsOnly_pyPrint (hEcho _))
  intro _
  apply emitsOnly_bind (emitsOnly_pyPrint (hEcho _))
  intro _
  apply emitsOnly_bind (emitsOnly_genUploadPhase hEcho (hLook _) (hSend _) rd)
  intro _
  apply emitsOnly_bind (emitsOnly_pyGet _ _)
  intro fn
  apply emitsOnly_bind (emitsOnly_pyGet _ _)
  intro ln
  apply emitsOnly_bind (emitsOnly_pyGet _ _)
  intro em
  apply emitsOnly_bind (emitsOnly_pyGet _ _)
  intro ph
  apply emitsOnly_forEachM
  intro kv _
  exact emitsOnly_genFillOneField hEcho (hLook _) (hSend _ _)

theorem emitsOnly_dispatchHandler {P : Event → Prop}
    (hEcho : ∀ msg, P (Event.echo msg))
    (hLook : ∀ sel, P (Event.lookup sel))
    (hClick : ∀ sel, P (Event.clickOn sel))
    (hSend : ∀ sel t, P (Event.sendKeysTo sel t))
    (hFrame : ∀ sel, P (Event.switchToFrame sel))
    (hDC : P Event.switchToDefaultContent)
    (u : String) (rd : List (String × String)) (txt : String) :
    EmitsOnly P (dispatchHandler u rd txt) := by
  unfold dispatchHandler
  cases h : portalOf u <;> simp only [h]
  · exact emitsOnly_fill_workday hEcho hLook hClick hSend rd txt
  · exact emitsOnly_fill_greenhouse hEcho hLook hClick hSend hFrame hDC rd txt
  · exact emitsOnly_fill_lever hEcho hLook hSend rd txt
  · exact emitsOnly_fill_generic hEcho hLook hSend rd txt

theorem emitsOnly_navPhase {P : Event → Prop}
    (hEcho : ∀ msg, P (Event.echo msg))
    (hNav : ∀ u, P (Event.navigate u)) (u : String) :
    EmitsOnly P (navPhase u) := by
  unfold navPhase
  apply emitsOnly_bind (emitsOnly_pyPrint (hEcho _))
  intro _
  apply emitsOnly_bind (emitsOnly_navigateTo (hNav _))
  intro _
  exact emitsOnly_sleepSec 3

theorem emitsOnly_routerTryBody {P : Event → Prop}
    (hEcho : ∀ msg, P (Event.echo msg))
    (hLook : ∀ sel, P (Event.lookup sel))
    (hClick : ∀ sel, P (Event.clickOn sel))
    (hSend : ∀ sel t, P (Event.sendKeysTo sel t))
    (hFrame : ∀ sel, P (Event.switchToFrame sel))
    (hDC : P Event.switchToDefaultContent)
    (hNav : ∀ u2, P (Event.navigate u2))
    (u : String) (rd : List (String × String)) (txt : String) :
    EmitsOnly P (routerTryBody u rd txt) := by
  unfold routerTryBody
  apply emitsOnly_bind (emitsOnly_navPhase hEcho hNav u)
  intro _
  apply emitsOnly_bind
    (emitsOnly_dispatchHandler hEcho hLook hClick hSend hFrame hDC u rd txt)
  intro _
  exact emitsOnly_pyPrint (hEcho _)

theorem emitsOnly_start_application {P : Event → Prop}
    (hEcho : ∀ msg, P (Event.echo msg))
    (hLook : ∀ sel, P (Event.lookup sel))
    (hClick : ∀ sel, P (Event.clickOn sel))
    (hSend : ∀ sel t, P (Event.sendKeysTo sel t))
    (hFrame : ∀ sel, P (Event.switchToFrame sel))
    (hDC : P Event.switchToDefaultContent)
    (hNav : ∀ u2, P (Event.navigate u2))
    (hShot : ∀ f, P (Event.screenshot f))
    (d : Bool) (u : String) (rd : List (String × String)) (txt : String) :
    EmitsOnly P (start_application d u rd txt) := by
  unfold start_application
  by_cases hc : (!(d && pyTruthyStr u && pyTruthyDict rd && pyTruthyStr txt)) = true
  · rw [if_pos hc]
    apply emitsOnly_bind (emitsOnly_pyPrint (hEcho _))
    intro _
    exact emitsOnly_pure _
  · rw [if_neg hc]
    apply emitsOnly_pyTry
    · apply emitsOnly_bind (emitsOnly_routerTryBody hEcho hLook hClick hSend hFrame hDC hNav u rd txt)
      intro _
      exact emitsOnly_pure _
    · intro e
      apply emitsOnly_bind (emitsOnly_pyPrint (hEcho _))
      intro _
      apply emitsOnly_bind (emitsOnly_saveScreenshot (hShot _))
      intro _
      apply emitsOnly_bind (emitsOnly_pyPrint (hEcho _))
      intro _
      exact emitsOnly_pure _

theorem containsChars_of_leading {n l : List Char}
    (h : startsWithChars n l = true) : containsChars n l = true := by
  cases l with
  | nil =>
    cases n with
    | nil => rfl
    | cons x xs => simp [startsWithChars] at h
  | cons c cs =>
    simp [containsChars, h]

theorem containsChars_of_leading_append {a : List Char} :
    ∀ {b l : List Char}, startsWithChars (a ++ b) l = true →
      containsChars b l = true := by
  induction a with
  | nil =>
    intro b l h
    exact containsChars_of_leading h
  | cons x xs ih =>
    intro b l h
    cases l with
    | nil => simp [startsWithChars] at h
    | cons c cs =>
      simp only [List.cons_append, startsWithChars, Bool.and_eq_true] at h
      have h2 := ih h.2
      simp [containsChars, h2]

theorem containsChars_append_drop :
    ∀ {l : List Char} (a : List Char) {b : List Char},
      containsChars (a ++ b) l = true → containsChars b l = true := by
  intro l
  induction l with
  | nil =>
    intro a b h
    simp only [containsChars, List.isEmpty_iff, List.append_eq_nil] at h ⊢
    exact h.2
  | cons c cs ih =>
    intro a b h
    simp only [containsChars, Bool.or_eq_true] at h ⊢
    rcases h with h | h
    · rcases Bool.or_eq_true _ _ |>.mp (by
        have := containsChars_of_leading_append h
        simpa [containsChars] using this) with h2 | h2
      · exact Or.inl h2
      · exact Or.inr h2
    · exact Or.inr (ih a h)

theorem pyIn_greenhouse_of_boards {s : String}
    (h : pyIn "boards.greenhouse.io" s = true) :
    pyIn "greenhouse.io" s = true := by
  unfold pyIn at h ⊢
  have hsplit : pyLower "boards.greenhouse.io" =
      pyLower "boards." ++ pyLower "greenhouse.io" := by decide
  rw [hsplit] at h
  exact containsChars_append_drop (pyLower "boards.")  h

/-- C1 (amended): the platform detection of start_application matches the
vendor domains, not the bare vendor names: a URL containing workday
(case-insensitive) dispatches to the Workday handler; otherwise one
containing greenhouse.io dispatches to the Greenhouse handler (the
boards.greenhouse.io disjunct of the source is subsumed); otherwise one
containing lever.co dispatches to the Lever handler; a URL containing none
of the three patterns dispatches to the generic fallback.  First match
wins. -/
theorem classify_first_match_amended (url : String) :
    (pyIn "workday" url = true → portalOf url = Portal.workday) ∧
    (pyIn "workday" url = false → pyIn "greenhouse.io" url = true →
      portalOf url = Portal.greenhouse) ∧
    (pyIn "workday" url = false → pyIn "greenhouse.io" url = false →
      pyIn "lever.co" url = true → portalOf url = Portal.lever) ∧
    (pyIn "workday" url = false → pyIn "greenhouse.io" url = false →
      pyIn "lever.co" url = false → portalOf url = Portal.generic) := by
  refine ⟨?_, ?_, ?_, ?_⟩
  · intro h1
    simp [portalOf, h1]
  · intro h1 h2
    simp [portalOf, h1, h2]
  · intro h1 h2 h3
    have hb : pyIn "boards.greenhouse.io" url = false := by
      rcases hbb : pyIn "boards.greenhouse.io" url with _ | _
      · rfl
      · rw [pyIn_greenhouse_of_boards hbb] at h2
        exact h2
    simp [portalOf, h1, h2, h3, hb]
  · intro h1 h2 h3
    have hb : pyIn "boards.greenhouse.io" url = false := by
      rcases hbb : pyIn "boards.greenhouse.io" url with _ | _
      · rfl
      · rw [pyIn_greenhouse_of_boards hbb] at h2
        exact h2
    simp [portalOf, h1, h2, h3, hb]

/-- C1 (witness): the amended classification applied to a Lever URL. -/
theorem classify_first_match_amended_witness :
    pyIn "workday" "https://jobs.lever.co/acme/1" = false ∧
    pyIn "greenhouse.io" "https://jobs.lever.co/acme/1" = false ∧
    pyIn "lever.co" "https://jobs.lever.co/acme/1" = true ∧
    portalOf "https://jobs.lever.co/acme/1" = Portal.lever :=
  ⟨by decide, by decide, by decide,
   (classify_first_match_amended "https://jobs.lever.co/acme/1").2.2.1
     (by decide) (by decide) (by decide)⟩

/-- C1 (counterexample): the claim says any URL containing greenhouse as a
case-insensitive substring dispatches to the Greenhouse handler; this URL
contains greenhouse yet the detection chain classifies it generic and
start_application dispatches the generic fallback, because the source
pattern is the domain greenhouse.io. -/
theorem classify_greenhouse_substring_counterexample :
    pyIn "greenhouse" "https://greenhouse.example.com/jobs/1" = true ∧
    portalOf "https://greenhouse.example.com/jobs/1" = Portal.generic ∧
    dispatchHandler "https://greenhouse.example.com/jobs/1" rdTest txtTest =
      fill_generic_form rdTest txtTest := by
  refine ⟨by decide, by decide, ?_⟩
  have h : portalOf "https://greenhouse.example.com/jobs/1" = Portal.generic := by
    decide
  simp only [dispatchHandler, h]

/-- C4 (amended): a call with an empty postingURL returns the shared
missing-input failure outcome of the defensive all() check, the same
outcome produced when the resume data or the application text is missing;
the only event issued is the console error message, so no navigation call
reaches the browser. -/
theorem missing_url_generic_outcome (d : Bool) (rd : List (String × String))
    (txt : String) :
    (∀ env s, start_application d "" rd txt env s =
      (Except.ok RouterExit.missingInput,
       { s with events := s.events ++
          [Event.echo "Error: Missing driver, job_url, resume_data, or application_text."] })) ∧
    EmitsOnly noNavEv (start_application d "" rd txt) := by
  have hc : (!(d && pyTruthyStr "" && pyTruthyDict rd && pyTruthyStr txt)) = true := by
    simp [pyTruthyStr]
  have heq : ∀ (env : Env) (s : St), start_application d "" rd txt env s =
      (Except.ok RouterExit.missingInput,
       { s with events := s.events ++
          [Event.echo "Error: Missing driver, job_url, resume_data, or application_text."] }) := by
    intro env s
    unfold start_application
    rw [if_pos hc]
    rfl
  refine ⟨heq, ?_⟩
  intro env s
  refine ⟨[Event.echo "Error: Missing driver, job_url, resume_data, or application_text."], ?_, ?_⟩
  · rw [heq env s]
  · intro e he
    simp at he
    simp [he, noNavEv]

/-- C4 (counterexample): with an empty postingURL the router returns the
very same outcome and state it returns when the URL is present but the
resume data is missing, so the outcome is the shared missing-input failure
of the all() check, not a MissingURL-specific kind; the trace shows the
single error message and no navigation. -/
theorem missing_url_counterexample :
    start_application true "" rdTest txtTest envBenign stBlank =
      start_application true urlGh [] txtTest envBenign stBlank ∧
    (start_application true "" rdTest txtTest envBenign stBlank).1 =
      Except.ok RouterExit.missingInput ∧
    (start_application true "" rdTest txtTest envBenign stBlank).2.events =
      [Event.echo "Error: Missing driver, job_url, resume_data, or application_text."] := by
  refine ⟨rfl, rfl, rfl⟩

/-- C9 (confirmed): an empty application_text, like an empty resume_data
dict, is falsy, so the defensive all() check returns early with the
missing-input outcome; the whole run appends one console message and issues
no navigation and no handler dispatch. -/
theorem empty_application_text_early_return :
    (∀ (d : Bool) (u : String) (rd : List (String × String)) (env : Env) (s : St),
      start_application d u rd "" env s =
        (Except.ok RouterExit.missingInput,
         { s with events := s.events ++
            [Event.echo "Error: Missing driver, job_url, resume_data, or application_text."] })) ∧
    (∀ (d : Bool) (u : String) (txt : String) (env : Env) (s : St),
      start_application d u [] txt env s =
        (Except.ok RouterExit.missingInput,
         { s with events := s.events ++
            [Event.echo "Error: Missing driver, job_url, resume_data, or application_text."] })) := by
  constructor
  · intro d u rd env s
    have hc : (!(d && pyTruthyStr u && pyTruthyDict rd && pyTruthyStr "")) = true := by
      simp [pyTruthyStr]
    unfold start_application
    rw [if_pos hc]
    rfl
  · intro d u txt env s
    have hc : (!(d && pyTruthyStr u && pyTruthyDict [] && pyTruthyStr txt)) = true := by
      simp [pyTruthyDict]
    unfold start_application
    rw [if_pos hc]
    rfl

set_option maxHeartbeats 4000000 in
/-- C2 (code_bug evidence): the resume path of this record exists on no
filesystem, yet start_application runs its defensive check (which only
tests truthiness of the four arguments and never consults the filesystem),
navigates the browser to the posting and sends the dangling path into the
greenhouse file input.  The spec requires a fail-fast precondition failure
before any browser interaction. -/
theorem route_navigates_despite_missing_resume_file :
    envNoFile.fileExists "/nonexistent/Resume/New_resume.pdf" = false ∧
    alistFind rdTest "resume_path" = some "/nonexistent/Resume/New_resume.pdf" ∧
    (start_application true urlGh rdTest txtTest envNoFile stGhPage).1 =
      Except.ok RouterExit.completed ∧
    Event.navigate urlGh ∈
      (start_application true urlGh rdTest txtTest envNoFile stGhPage).2.events ∧
    Event.sendKeysTo ghFileInputSel "/nonexistent/Resume/New_resume.pdf" ∈
      (start_application true urlGh rdTest txtTest envNoFile stGhPage).2.events := by
  refine ⟨rfl, rfl, rfl, by decide, by decide⟩

/-- C6 (counterexample): on a Workday page where the autofill control never
appears (an unrecoverable first-step failure), the handler prints two
messages and returns normally: its complete trace is listed below and holds
zero screenshot captures, and its result is a plain ok with no failure
outcome; the claimed per-portal screenshot artifact does not exist. -/
theorem workday_step_failure_no_screenshot_counterexample :
    fill_workday_form rdTest txtTest envBenign stBlank =
      (Except.ok (),
       { page := []
         events :=
          [Event.echo "Workday portal detected. Starting form fill process.",
           Event.echo "Looking for Autofill with Resume option...",
           Event.lookup wdAutofillSel,
           Event.echo "Could not complete the initial Workday autofill step.",
           Event.echo "The process will require full manual completion from here."] }) ∧
    countShots (fill_workday_form rdTest txtTest envBenign stBlank).2.events = 0 := by
  refine ⟨rfl, rfl⟩

/-- C6 (amended): on an unrecoverable step failure a handler logs a
descriptive console message and returns normally with no failure outcome;
no handler ever captures a screenshot, for any input and environment — the
only screenshot in the module is the router-level critical_error.png taken
when an exception escapes a handler. -/
theorem handlers_never_screenshot :
    (∀ (rd : List (String × String)) (txt : String),
      EmitsOnly noShotEv (fill_workday_form rd txt) ∧
      EmitsOnly noShotEv (fill_greenhouse_form rd txt) ∧
      EmitsOnly noShotEv (fill_lever_form rd txt) ∧
      EmitsOnly noShotEv (fill_generic_form rd txt)) ∧
    (fill_workday_form rdTest txtTest envBenign stBlank).1 = Except.ok () ∧
    Event.echo "Could not complete the initial Workday autofill step." ∈
      (fill_workday_form rdTest txtTest envBenign stBlank).2.events := by
  refine ⟨?_, rfl, by decide⟩
  intro rd txt
  have hEcho : ∀ msg, noShotEv (Event.echo msg) := by intro msg f; simp
  have hLook : ∀ sel, noShotEv (Event.lookup sel) := by intro sel f; simp
  have hClick : ∀ sel, noShotEv (Event.clickOn sel) := by intro sel f; simp
  have hSend : ∀ sel t, noShotEv (Event.sendKeysTo sel t) := by intro sel t f; simp
  have hFrame : ∀ sel, noShotEv (Event.switchToFrame sel) := by intro sel f; simp
  have hDC : noShotEv Event.switchToDefaultContent := by intro f; simp
  exact ⟨emitsOnly_fill_workday hEcho hLook hClick hSend rd txt,
         emitsOnly_fill_greenhouse hEcho hLook hClick hSend hFrame hDC rd txt,
         emitsOnly_fill_lever hEcho hLook hSend rd txt,
         emitsOnly_fill_generic hEcho hLook hSend rd txt⟩

set_option maxHeartbeats 4000000 in
/-- C7 (counterexample): greenhouse posting on a blank page, so the resume
upload input is never found; the handler swallows the failure and the
router reaches the completion banner and returns the normal completed exit,
not a failure outcome with succeeded false.  The quit-free part of the
claim does hold: no quit event is in the trace. -/
theorem upload_missing_completes_counterexample :
    (start_application true urlGh rdTest txtTest envBenign stBlank).1 =
      Except.ok RouterExit.completed ∧
    Event.echo "Could not upload resume. This step might need manual intervention." ∈
      (start_application true urlGh rdTest txtTest envBenign stBlank).2.events ∧
    Event.echo "Automation complete. The form has been pre-filled." ∈
      (start_application true urlGh rdTest txtTest envBenign stBlank).2.events ∧
    Event.quitBrowser ∉
      (start_application true urlGh rdTest txtTest envBenign stBlank).2.events := by
  refine ⟨rfl, by decide, by decide, by decide⟩

set_option maxHeartbeats 4000000 in
/-- C7 (amended): neither the router nor any handler ever issues a quit or
close call on the browser session, whatever the inputs, environment and
page: no run of start_application ever appends a quit event.  When the
resume upload input is never found the failure is swallowed and the run
still reaches the normal completed exit, leaving the session open and
navigated for manual takeover. -/
theorem router_never_quits_browser :
    (∀ (d : Bool) (u : String) (rd : List (String × String)) (txt : String),
      EmitsOnly noQuitEv (start_application d u rd txt)) ∧
    (start_application true urlGh rdTest txtTest envBenign stGhPage).1 =
      Except.ok RouterExit.completed ∧
    Event.quitBrowser ∉
      (start_application true urlGh rdTest txtTest envBenign stGhPage).2.events := by
  refine ⟨?_, rfl, by decide⟩
  intro d u rd txt
  have hEcho : ∀ msg, noQuitEv (Event.echo msg) := by intro msg; simp [noQuitEv]
  have hLook : ∀ sel, noQuitEv (Event.lookup sel) := by intro sel; simp [noQuitEv]
  have hClick : ∀ sel, noQuitEv (Event.clickOn sel) := by intro sel; simp [noQuitEv]
  have hSend : ∀ sel t, noQuitEv (Event.sendKeysTo sel t) := by
    intro sel t; simp [noQuitEv]
  have hFrame : ∀ sel, noQuitEv (Event.switchToFrame sel) := by
    intro sel; simp [noQuitEv]
  have hDC : noQuitEv Event.switchToDefaultContent := by simp [noQuitEv]
  have hNav : ∀ u2, noQuitEv (Event.navigate u2) := by intro u2; simp [noQuitEv]
  have hShot : ∀ f, noQuitEv (Event.screenshot f) := by intro f; simp [noQuitEv]
  exact emitsOnly_start_application hEcho hLook hClick hSend hFrame hDC hNav hShot d u rd txt

/-- C3 (confirmed): when the defensive check passes and the navigation
phase succeeded, any exception escaping the dispatched portal handler is
caught at the router boundary: start_application prints the critical-error
message, saves the critical_error.png screenshot and returns the
criticalError exit as an ok value — the exception never propagates past the
router to its caller. -/
theorem router_catches_handler_exception
    {u : String} {rd : List (String × String)} {txt : String}
    {env : Env} {s s1 s2 : St} {e : PyErr}
    (hu : pyTruthyStr u = true) (hrd : pyTruthyDict rd = true)
    (ht : pyTruthyStr txt = true)
    (hnav : navPhase u env s = (Except.ok (), s1))
    (hdisp : dispatchHandler u rd txt env s1 = (Except.error e, s2)) :
    start_application true u rd txt env s =
      (Except.ok RouterExit.criticalError,
       { s2 with events := s2.events ++
          [Event.echo "A critical error occurred during the automation process.",
           Event.screenshot "critical_error.png",
           Event.echo "Saved a screenshot to critical_error.png."] }) ∧
    Event.screenshot "critical_error.png" ∈
      (start_application true u rd txt env s).2.events := by
  have hcond :
      ¬ ((!(true && pyTruthyStr u && pyTruthyDict rd && pyTruthyStr txt)) = true) := by
    simp [hu, hrd, ht]
  have hbody : routerTryBody u rd txt env s = (Except.error e, s2) := by
    unfold routerTryBody
    rw [bind_run_ok _ hnav, bind_run_error _ hdisp]
  have houter :
      (routerTryBody u rd txt >>= fun _ => (pure RouterExit.completed : M RouterExit)) env s =
        (Except.error e, s2) :=
    bind_run_error _ hbody
  have hrun : start_application true u rd txt env s =
      (Except.ok RouterExit.criticalError,
       { s2 with events := s2.events ++
          [Event.echo "A critical error occurred during the automation process.",
           Event.screenshot "critical_error.png",
           Event.echo "Saved a screenshot to critical_error.png."] }) := by
    unfold start_application
    rw [if_neg hcond]
    rw [pyTry_run_caught _ houter rfl]
    simp [pyPrint, saveScreenshot, emit, bind_run, pure_run]
  refine ⟨hrun, ?_⟩
  rw [hrun]
  simp

set_option maxHeartbeats 4000000 in
/-- C3 (witness): frame-switch fault injection on a greenhouse posting with
the iframe present: the WebDriverException escapes the greenhouse handler
(whose iframe try catches only TimeoutException) and the router saves the
screenshot. -/
theorem router_catches_handler_exception_witness :
    Event.screenshot "critical_error.png" ∈
      (start_application true urlGh rdTest txtTest envFrameBoom stFramePage).2.events :=
  (@router_catches_handler_exception urlGh rdTest txtTest envFrameBoom
    stFramePage stNavDone stBoomDone PyErr.otherExc
    (by decide) (by decide) (by decide) (by rfl) (by rfl)).2

theorem pageLookup_pageSend_ne {p : List (Sel × String)} {sel sel2 : Sel}
    (t : String) (h : sel2 ≠ sel) :
    pageLookup (pageSend p sel2 t) sel = pageLookup p sel := by
  induction p with
  | nil => rfl
  | cons kv rest ih =>
    rcases kv with ⟨k, v⟩
    by_cases hk : k = sel2
    · have hks : ¬ (k = sel) := by rw [hk]; exact h
      simp [pageSend, pageLookup, hk, hks, h]
    · by_cases hks : k = sel
      · simp [pageSend, pageLookup, hk, hks, h, Ne.symm h]
      · simp [pageSend, pageLookup, hk, hks, ih]

theorem noClobber_pure (sel : Sel) (a : α) : NoClobber sel (pure a : M α) := by
  intro env s v h hv
  exact ⟨h, [], by simp [pure_run], by simp⟩

theorem noClobber_throwErr (sel : Sel) (e : PyErr) :
    NoClobber sel (throwErr e : M α) := by
  intro env s v h hv
  exact ⟨h, [], by simp [throwErr], by simp⟩

theorem noClobber_emit {sel : Sel} {e : Event}
    (he : ∀ t, e ≠ Event.sendKeysTo sel t) : NoClobber sel (emit e) := by
  intro env s v h hv
  refine ⟨h, [e], by simp [emit_run], ?_⟩
  intro t ht
  simp at ht
  exact he t ht.symm

theorem noClobber_pyPrint (sel : Sel) (msg : String) :
    NoClobber sel (pyPrint msg) :=
  noClobber_emit (by intro t; simp)

theorem noClobber_switchToDefault (sel : Sel) :
    NoClobber sel switchToDefault :=
  noClobber_emit (by intro t; simp)

theorem noClobber_sleepSec (sel : Sel) (n : Nat) : NoClobber sel (sleepSec n) :=
  noClobber_pure sel ()

theorem noClobber_pyGet (sel : Sel) (d : List (String × String)) (k : String) :
    NoClobber sel (pyGet d k) := by
  intro env s v h hv
  refine ⟨?_, [], ?_, by simp⟩ <;>
    · unfold pyGet
      rcases alistFind d k with _ | v0 <;> simp [pure_run, throwErr, h]

theorem noClobber_waitFor (sel sel2 : Sel) : NoClobber sel (waitFor sel2) := by
  intro env s v h hv
  have hstate : ((waitFor sel2 env s).2) =
      { s with events := s.events ++ [Event.lookup sel2] } := by
    unfold waitFor
    rcases pageLookup s.page sel2 with _ | v0 <;> rfl
  rw [hstate]
  exact ⟨h, [Event.lookup sel2], rfl, by simp⟩

theorem noClobber_findElement (sel sel2 : Sel) :
    NoClobber sel (findElement sel2) := by
  intro env s v h hv
  have hstate : ((findElement sel2 env s).2) =
      { s with events := s.events ++ [Event.lookup sel2] } := by
    unfold findElement
    rcases pageLookup s.page sel2 with _ | v0 <;> rfl
  rw [hstate]
  exact ⟨h, [Event.lookup sel2], rfl, by simp⟩

theorem noClobber_clickElem (sel sel2 : Sel) : NoClobber sel (clickElem sel2) := by
  intro env s v h hv
  have hstate : ((clickElem sel2 env s).2) =
      { s with events := s.events ++ [Event.clickOn sel2] } := by
    unfold clickElem
    rcases env.clickRaises sel2 with _ | _ <;> rfl
  rw [hstate]
  exact ⟨h, [Event.clickOn sel2], rfl, by simp⟩

theorem noClobber_switchFrame (sel sel2 : Sel) :
    NoClobber sel (switchFrame sel2) := by
  intro env s v h hv
  have hstate : ((switchFrame sel2 env s).2) =
      { s with events := s.events ++ [Event.switchToFrame sel2] } := by
    unfold switchFrame
    rcases env.frameSwitchRaises with _ | _ <;> rfl
  rw [hstate]
  exact ⟨h, [Event.switchToFrame sel2], rfl, by simp⟩

theorem noClobber_navigateTo (sel : Sel) (url : String) :
    NoClobber sel (navigateTo url) := by
  intro env s v h hv
  have hstate : ((navigateTo url env s).2) =
      { s with events := s.events ++ [Event.navigate url] } := by
    unfold navigateTo
    rcases env.navRaises with _ | _ <;> rfl
  rw [hstate]
  exact ⟨h, [Event.navigate url], rfl, by simp⟩

theorem noClobber_sendKeys_ne {sel sel2 : Sel} (t : String) (hne : sel2 ≠ sel) :
    NoClobber sel (sendKeys sel2 t) := by
  intro env s v h hv
  unfold sendKeys
  rcases hr : env.sendRaises sel2 with _ | _
  · simp only [Bool.false_eq_true, if_false]
    refine ⟨?_, [Event.sendKeysTo sel2 t], by simp, ?_⟩
    · simpa [pageLookup_pageSend_ne t hne] using h
    · intro t2 ht
      simp at ht
      exact hne ht.1.symm
  · simp only [if_true]
    refine ⟨h, [Event.sendKeysTo sel2 t], by simp, ?_⟩
    intro t2 ht
    simp at ht
    exact hne ht.1.symm

theorem noClobber_bind {sel : Sel} {m : M α} {f : α → M β}
    (hm : NoClobber sel m) (hf : ∀ a, NoClobber sel (f a)) :
    NoClobber sel (m >>= f) := by
  intro env s v h hv
  rcases hres : m env s with ⟨r, s1⟩
  have hm1 := hm env s v h hv
  rw [hres] at hm1
  rcases hm1 with ⟨hpage1, n1, hev1, hn1⟩
  cases r with
  | ok a =>
    have hf1 := hf a env s1 v hpage1 hv
    rcases hf1 with ⟨hpage2, n2, hev2, hn2⟩
    rw [bind_run_ok f hres]
    refine ⟨hpage2, n1 ++ n2, ?_, ?_⟩
    · rw [hev2, hev1, List.append_assoc]
    · intro t ht
      rcases List.mem_append.mp (by simpa using ht) with hx | hx
      · exact hn1 t hx
      · exact hn2 t hx
  | error e =>
    rw [bind_run_error f hres]
    exact ⟨hpage1, n1, hev1, hn1⟩

theorem noClobber_pyTry {sel : Sel} {body : M α} {canHandle : PyErr → Bool}
    {handler : PyErr → M α} (hb : NoClobber sel body)
    (hh : ∀ e, NoClobber sel (handler e)) :
    NoClobber sel (pyTry body canHandle handler) := by
  intro env s v h hv
  rcases hres : body env s with ⟨r, s1⟩
  have hb1 := hb env s v h hv
  rw [hres] at hb1
  rcases hb1 with ⟨hpage1, n1, hev1, hn1⟩
  cases r with
  | ok a =>
    rw [pyTry_run_ok canHandle handler hres]
    exact ⟨hpage1, n1, hev1, hn1⟩
  | error e =>
    by_cases hc : canHandle e = true
    · rw [pyTry_run_caught handler hres hc]
      have hh1 := hh e env s1 v hpage1 hv
      rcases hh1 with ⟨hpage2, n2, hev2, hn2⟩
      refine ⟨hpage2, n1 ++ n2, ?_, ?_⟩
      · rw [hev2, hev1, List.append_assoc]
      · intro t ht
        rcases List.mem_append.mp (by simpa using ht) with hx | hx
        · exact hn1 t hx
        · exact hn2 t hx
    · rw [pyTry_run_uncaught handler hres (Bool.not_eq_true _ ▸ hc)]
      exact ⟨hpage1, n1, hev1, hn1⟩

theorem noClobber_pyTryFinally_switchToDefault {sel : Sel} {body : M α}
    (hb : NoClobber sel body) :
    NoClobber sel (pyTryFinally body switchToDefault) := by
  intro env s v h hv
  rcases hb env s v h hv with ⟨hpage1, n1, hev1, hn1⟩
  rw [pyTryFinally_switchToDefault_run]
  refine ⟨hpage1, n1 ++ [Event.switchToDefaultContent], ?_, ?_⟩
  · simp [hev1]
  · intro t ht
    exact hn1 t (by simpa using ht)

theorem noClobber_forEachM {sel : Sel} {f : α → M Unit} {l : List α}
    (hf : ∀ x ∈ l, NoClobber sel (f x)) : NoClobber sel (forEachM f l) := by
  induction l with
  | nil => exact noClobber_pure sel ()
  | cons x xs ih =>
    exact noClobber_bind (hf x (by simp))
      (fun _ => ih (fun y hy => hf y (by simp [hy])))

theorem noClobber_ghFillOneField (sel : Sel) (rd : List (String × String))
    (kv : String × Sel) : NoClobber sel (ghFillOneField rd kv) := by
  by_cases heq : kv.2 = sel
  · intro env s v h hv
    have hfind : findElement kv.2 env s =
        (Except.ok v, { s with events := s.events ++ [Event.lookup kv.2] }) :=
      findElement_run_some env (by rw [heq]; exact h)
    have hbody : (findElement kv.2 >>= fun v0 =>
        if v0 = "" then (do
          pyPrint ("Filling " ++ kv.1 ++ "...")
          let data ← pyGet rd kv.1
          sendKeys kv.2 data)
        else pure ()) env s =
        (Except.ok (), { s with events := s.events ++ [Event.lookup kv.2] }) := by
      rw [bind_run_ok _ hfind, if_neg hv]
      exact pure_run () env _
    have hrun : ghFillOneField rd kv env s =
        (Except.ok (), { s with events := s.events ++ [Event.lookup kv.2] }) := by
      unfold ghFillOneField
      rw [pyTry_run_ok _ _ hbody]
    rw [hrun]
    exact ⟨h, [Event.lookup kv.2], rfl, by simp⟩
  · unfold ghFillOneField
    apply noClobber_pyTry
    · apply noClobber_bind (noClobber_findElement sel kv.2)
      intro v0
      by_cases hv0 : v0 = ""
      · rw [if_pos hv0]
        apply noClobber_bind (noClobber_pyPrint sel _)
        intro _
        apply noClobber_bind (noClobber_pyGet sel rd kv.1)
        intro data
        exact noClobber_sendKeys_ne data heq
      · rw [if_neg hv0]
        exact noClobber_pure sel ()
    · intro e
      exact noClobber_pyPrint sel _

theorem noClobber_fill_greenhouse (sel : Sel) (rd : List (String × String))
    (txt : String) (hfile : sel ≠ ghFileInputSel) (hcover : sel ≠ ghCoverSel) :
    NoClobber sel (fill_greenhouse_form rd txt) := by
  unfold fill_greenhouse_form
  apply noClobber_bind (noClobber_pyPrint sel _)
  intro _
  apply noClobber_bind
  · unfold ghIframePhase
    apply noClobber_pyTry
    · apply noClobber_bind (noClobber_pyPrint sel _)
      intro _
      apply noClobber_bind (noClobber_waitFor sel ghIframeSel)
      intro _
      apply noClobber_bind (noClobber_switchFrame sel ghIframeSel)
      intro _
      exact noClobber_pyPrint sel _
    · intro e
      exact noClobber_pyPrint sel _
  · intro _
    apply noClobber_pyTryFinally_switchToDefault
    unfold ghMainPhases
    apply noClobber_bind
    · unfold ghUploadPhase
      apply noClobber_pyTry
      · apply noClobber_bind (noClobber_pyPrint sel _)
        intro _
        apply noClobber_bind (noClobber_waitFor sel ghAttachSel)
        intro _
        apply noClobber_bind (noClobber_clickElem sel ghAttachSel)
        intro _
        apply noClobber_bind (noClobber_waitFor sel ghFileInputSel)
        intro _
        apply noClobber_bind (noClobber_pyGet sel rd "resume_path")
        intro path
        apply noClobber_bind (noClobber_sendKeys_ne path (Ne.symm hfile))
        intro _
        apply noClobber_bind (noClobber_waitFor sel ghChangeBtnSel)
        intro _
        exact noClobber_pyPrint sel _
      · intro e
        exact noClobber_pyPrint sel _
    · intro _
      apply noClobber_bind
      · unfold ghFillFields
        apply noClobber_forEachM
        intro kv _
        exact noClobber_ghFillOneField sel rd kv
      · intro _
        unfold ghCoverPhase
        apply noClobber_pyTry
        · apply noClobber_bind (noClobber_pyPrint sel _)
          intro _
          apply noClobber_bind (noClobber_findElement sel ghCoverSel)
          intro _
          apply noClobber_bind (noClobber_sendKeys_ne txt (Ne.symm hcover))
          intro _
          exact noClobber_pyPrint sel _
        · intro e
          exact noClobber_pyPrint sel _

/-- C8 (confirmed): for each of the four named greenhouse fields
(first_name, last_name, email, phone), whenever the field currently holds a
nonempty value, any run of the greenhouse handler leaves that value
unchanged and never issues a send_keys on the field: the source guard fills
a located field only when its value attribute is empty, and no other
greenhouse step writes to these selectors. -/
theorem greenhouse_prefilled_fields_preserved (rd : List (String × String))
    (txt : String) (sel : Sel) (hmem : sel ∈ ghFieldList.map Prod.snd) :
    NoClobber sel (fill_greenhouse_form rd txt) := by
  have hfile : sel ≠ ghFileInputSel := by
    simp [ghFieldList] at hmem
    rcases hmem with h | h | h | h <;> rw [h] <;> decide
  have hcover : sel ≠ ghCoverSel := by
    simp [ghFieldList] at hmem
    rcases hmem with h | h | h | h <;> rw [h] <;> decide
  exact noClobber_fill_greenhouse sel rd txt hfile hcover

/-- C8 (witness): the phone field of the prefilled page keeps its
portal-filled value through a full greenhouse run. -/
theorem greenhouse_prefilled_fields_preserved_witness :
    Sel.byId "phone" ∈ ghFieldList.map Prod.snd ∧
    pageLookup
      ((fill_greenhouse_form rdTest txtTest envBenign stPrefilled).2).page
      (Sel.byId "phone") = some "555-999-0000" :=
  ⟨by decide,
   (greenhouse_prefilled_fields_preserved rdTest txtTest (Sel.byId "phone")
      (by decide) envBenign stPrefilled "555-999-0000" (by decide)
      (by decide)).1⟩

theorem countDC_append (a b : List Event) :
    countDC (a ++ b) = countDC a + countDC b := by
  induction a with
  | nil => simp [countDC]
  | cons e rest ih => simp [countDC, ih, Nat.add_assoc]

theorem countDC_eq_zero {l : List Event}
    (h : ∀ e ∈ l, e ≠ Event.switchToDefaultContent) : countDC l = 0 := by
  induction l with
  | nil => rfl
  | cons e rest ih =>
    have he : e ≠ Event.switchToDefaultContent := h e (by simp)
    simp [countDC, he, ih (fun x hx => h x (by simp [hx]))]

theorem forEachM_cons (f : α → M Unit) (x : α) (xs : List α) :
    forEachM f (x :: xs) = (f x >>= fun _ => forEachM f xs) := rfl

theorem grows_pyPrint (msg : String) : Grows (pyPrint msg) :=
  emitsOnly_pyPrint trivial

theorem grows_ghUploadPhase (rd : List (String × String)) :
    Grows (ghUploadPhase rd) :=
  emitsOnly_ghUploadPhase (fun _ => trivial) (fun _ => trivial)
    (fun _ => trivial) (fun _ _ => trivial) rd

theorem grows_ghFillFields (rd : List (String × String)) :
    Grows (ghFillFields rd) :=
  emitsOnly_ghFillFields (fun _ => trivial) (fun _ => trivial)
    (fun _ _ => trivial) rd

theorem grows_ghCoverPhase (txt : String) : Grows (ghCoverPhase txt) :=
  emitsOnly_ghCoverPhase (fun _ => trivial) (fun _ => trivial)
    (fun _ _ => trivial) txt

theorem grows_ghFillOneField (rd : List (String × String)) (kv : String × Sel) :
    Grows (ghFillOneField rd kv) :=
  emitsOnly_ghFillOneField (fun _ => trivial) trivial (fun _ => trivial) rd

theorem ghIframePhase_run_noframe (env : Env) (s : St)
    (hif : pageLookup s.page ghIframeSel = none) :
    ghIframePhase env s = (Except.ok (),
      { s with events := s.events ++
        [Event.echo "Checking for Greenhouse iframe...",
         Event.lookup ghIframeSel,
         Event.echo "No iframe detected, continuing on main page."] }) := by
  unfold ghIframePhase
  simp [pyTry, bind_run, pyPrint, emit, waitFor, hif, catchTimeout]

theorem emitsWithE_attach_ghMainPhases (env : Env)
    (rd : List (String × String)) (txt : String) :
    EmitsWithE env (Event.lookup ghAttachSel) (ghMainPhases rd txt) := by
  unfold ghMainPhases
  apply emitsWithE_bind_left
  · unfold ghUploadPhase
    apply emitsWithE_pyTry
    · apply emitsWithE_bind_right (okE_pyPrint env _) (grows_pyPrint _)
      intro _
      apply emitsWithE_bind_left (emitsWithE_waitFor env ghAttachSel)
      intro a
      apply emitsOnly_bind (emitsOnly_clickElem trivial)
      intro _
      apply emitsOnly_bind (emitsOnly_waitFor trivial)
      intro _
      apply emitsOnly_bind (emitsOnly_pyGet _ _)
      intro _
      apply emitsOnly_bind (emitsOnly_sendKeys trivial)
      intro _
      apply emitsOnly_bind (emitsOnly_waitFor trivial)
      intro _
      exact emitsOnly_pyPrint trivial
    · intro e1
      exact grows_pyPrint _
  · intro a
    apply emitsOnly_bind (grows_ghFillFields rd)
    intro _
    exact grows_ghCoverPhase txt

theorem okE_ghUploadPhase {env : Env} (rd : List (String × String))
    (hclick : ∀ x, env.clickRaises x = false)
    (hsend : ∀ x, env.sendRaises x = false)
    {p : String} (hp : alistFind rd "resume_path" = some p) :
    OkE env (ghUploadPhase rd) := by
  unfold ghUploadPhase
  apply okE_pyTry
  · apply throwsIn_bind (throwsIn_pyPrint env _ _)
    intro _
    apply throwsIn_bind (throwsIn_waitFor env _ rfl)
    intro _
    apply throwsIn_bind (throwsIn_clickElem _ (hclick ghAttachSel))
    intro _
    apply throwsIn_bind (throwsIn_waitFor env _ rfl)
    intro _
    apply throwsIn_bind (throwsIn_pyGet _ hp)
    intro path
    apply throwsIn_bind (throwsIn_sendKeys _ path (hsend ghFileInputSel))
    intro _
    apply throwsIn_bind (throwsIn_waitFor env _ rfl)
    intro _
    exact throwsIn_pyPrint env _ _
  · intro e
    exact okE_pyPrint env _

theorem emitsWithE_firstname_ghMainPhases {env : Env}
    (rd : List (String × String)) (txt : String)
    (hclick : ∀ x, env.clickRaises x = false)
    (hsend : ∀ x, env.sendRaises x = false)
    {p : String} (hp : alistFind rd "resume_path" = some p) :
    EmitsWithE env (Event.lookup (Sel.byId "first_name")) (ghMainPhases rd txt) := by
  unfold ghMainPhases
  apply emitsWithE_bind_right (okE_ghUploadPhase rd hclick hsend hp)
    (grows_ghUploadPhase rd)
  intro _
  apply emitsWithE_bind_left
  · unfold ghFillFields
    simp only [ghFieldList, forEachM_cons]
    apply emitsWithE_bind_left
    · unfold ghFillOneField
      apply emitsWithE_pyTry
      · apply emitsWithE_bind_left (emitsWithE_findElement env _)
        intro v
        by_cases hv : v = ""
        · rw [if_pos hv]
          apply emitsOnly_bind (emitsOnly_pyPrint trivial)
          intro _
          apply emitsOnly_bind (emitsOnly_pyGet _ _)
          intro _
          exact emitsOnly_sendKeys trivial
        · rw [if_neg hv]
          exact emitsOnly_pure ()
      · intro e1
        exact grows_pyPrint _
    · intro _
      apply emitsOnly_bind (grows_ghFillOneField rd _)
      intro _
      apply emitsOnly_bind (grows_ghFillOneField rd _)
      intro _
      apply emitsOnly_bind (grows_ghFillOneField rd _)
      intro _
      exact emitsOnly_pure ()
  · intro _
    exact grows_ghCoverPhase txt

/-- C5 (confirmed): on a greenhouse page whose embedded iframe never
appears within the timeout, the handler catches the TimeoutException,
still attempts the main-page interactions — the attach lookup always, and
the named-field fill (witnessed by the first_name lookup) whenever no
unexpected driver fault is injected and the resume record has its path key
— and the try/finally cleanup issues switch_to.default_content exactly once
in the events of the run, whatever the rest of the page and environment and
however the main block exits. -/
theorem greenhouse_no_iframe_default_content_once
    (rd : List (String × String)) (txt : String) (env : Env) (s : St)
    (hif : pageLookup s.page ghIframeSel = none) :
    ∃ new, ((fill_greenhouse_form rd txt) env s).2.events = s.events ++ new ∧
      countDC new = 1 ∧
      Event.lookup ghAttachSel ∈ new ∧
      ((∀ x, env.clickRaises x = false) → (∀ x, env.sendRaises x = false) →
        (∃ p, alistFind rd "resume_path" = some p) →
        Event.lookup (Sel.byId "first_name") ∈ new) := by
  have hphase := ghIframePhase_run_noframe env
    { s with events := s.events ++
      [Event.echo "Greenhouse portal detected. Starting form fill process."] } hif
  have hrun : (fill_greenhouse_form rd txt) env s =
      ((ghMainPhases rd txt env
          { s with events := s.events ++
            [Event.echo "Greenhouse portal detected. Starting form fill process.",
             Event.echo "Checking for Greenhouse iframe...",
             Event.lookup ghIframeSel,
             Event.echo "No iframe detected, continuing on main page."] }).1,
       { (ghMainPhases rd txt env
          { s with events := s.events ++
            [Event.echo "Greenhouse portal detected. Starting form fill process.",
             Event.echo "Checking for Greenhouse iframe...",
             Event.lookup ghIframeSel,
             Event.echo "No iframe detected, continuing on main page."] }).2 with
         events := (ghMainPhases rd txt env
          { s with events := s.events ++
            [Event.echo "Greenhouse portal detected. Starting form fill process.",
             Event.echo "Checking for Greenhouse iframe...",
             Event.lookup ghIframeSel,
             Event.echo "No iframe detected, continuing on main page."] }).2.events ++
           [Event.switchToDefaultContent] }) := by
    unfold fill_greenhouse_form
    rw [bind_run_ok _ (pyPrint_run _ env s)]
    rw [bind_run_ok _ hphase]
    have := pyTryFinally_switchToDefault_run (ghMainPhases rd txt) env
      { s with events := (s.events ++
          [Event.echo "Greenhouse portal detected. Starting form fill process."]) ++
          [Event.echo "Checking for Greenhouse iframe...",
           Event.lookup ghIframeSel,
           Event.echo "No iframe detected, continuing on main page."] }
    rw [this]
    simp
  set s2 : St :=
    { s with events := s.events ++
      [Event.echo "Greenhouse portal detected. Starting form fill process.",
       Event.echo "Checking for Greenhouse iframe...",
       Event.lookup ghIframeSel,
       Event.echo "No iframe detected, continuing on main page."] } with hs2
  have hmain := (emitsOnly_ghMainPhases (P := fun e => e ≠ Event.switchToDefaultContent)
    (by intro msg; simp) (by intro sel; simp) (by intro sel; simp)
    (by intro sel t; simp) rd txt) env s2
  rcases hmain with ⟨n2, hev2, hp2⟩
  have hattach := emitsWithE_attach_ghMainPhases env rd txt s2
  rcases hattach with ⟨n2b, hev2b, hmemb⟩
  have hn2eq : n2b = n2 := by
    have := hev2b.symm.trans hev2
    exact List.append_cancel_left this
  rw [hn2eq] at hmemb
  refine ⟨[Event.echo "Greenhouse portal detected. Starting form fill process.",
           Event.echo "Checking for Greenhouse iframe...",
           Event.lookup ghIframeSel,
           Event.echo "No iframe detected, continuing on main page."] ++
          (n2 ++ [Event.switchToDefaultContent]), ?_, ?_, ?_, ?_⟩
  · rw [hrun]
    simp only []
    rw [hev2]
    simp [hs2]
  · rw [countDC_append, countDC_append, countDC_eq_zero hp2]
    rfl
  · simp [hmemb]
  · intro hclick hsend hkey
    rcases hkey with ⟨p, hp⟩
    have hfn := emitsWithE_firstname_ghMainPhases rd txt hclick hsend hp s2
    rcases hfn with ⟨n2c, hev2c, hmemc⟩
    have hn2eqc : n2c = n2 := by
      have := hev2c.symm.trans hev2
      exact List.append_cancel_left this
    rw [hn2eqc] at hmemc
    simp [hmemc]

/-- C5 (witness): blank greenhouse page, benign environment, resume record
with its path key. -/
theorem greenhouse_no_iframe_default_content_once_witness :
    pageLookup stBlank.page ghIframeSel = none ∧
    (∃ new, ((fill_greenhouse_form rdTest txtTest) envBenign stBlank).2.events =
        stBlank.events ++ new ∧
      countDC new = 1 ∧
      Event.lookup ghAttachSel ∈ new ∧
      ((∀ x, envBenign.clickRaises x = false) →
        (∀ x, envBenign.sendRaises x = false) →
        (∃ p, alistFind rdTest "resume_path" = some p) →
        Event.lookup (Sel.byId "first_name") ∈ new)) :=
  ⟨rfl, greenhouse_no_iframe_default_content_once rdTest txtTest envBenign
     stBlank rfl⟩

theorem emitsOnly_bind_det {P : Event → Prop} {m : M α} {f : α → M β} {v0 : α}
    (hm : EmitsOnly P m)
    (hdet : ∀ env s a s1, m env s = (Except.ok a, s1) → a = v0)
    (hf : EmitsOnly P (f v0)) : EmitsOnly P (m >>= f) := by
  intro env s
  rcases hm env s with ⟨n1, h1, hp1⟩
  rcases hres : m env s with ⟨r, s1⟩
  rw [hres] at h1
  cases r with
  | ok a =>
    have ha : a = v0 := hdet env s a s1 hres
    subst ha
    rcases hf env s1 with ⟨n2, h2, hp2⟩
    refine ⟨n1 ++ n2, ?_, ?_⟩
    · rw [bind_run_ok f hres, h2, h1, List.append_assoc]
    · intro e he
      rcases List.mem_append.mp he with h | h
      · exact hp1 e h
      · exact hp2 e h
  | error e =>
    refine ⟨n1, ?_, hp1⟩
    rw [bind_run_error f hres]
    exact h1

theorem pyGet_det {d : List (String × String)} {k v : String}
    (h : alistFind d k = some v) :
    ∀ env s a s1, pyGet d k env s = (Except.ok a, s1) → a = v := by
  intro env s a s1 hrun
  rw [pyGet_run_some env s h] at hrun
  simp at hrun
  exact hrun.1.symm

theorem pyDictInsert_snd_subset {β : Type} {d : List (String × β)} {k : String}
    {v : β} {x : β} (hx : x ∈ (pyDictInsert d k v).map Prod.snd) :
    x = v ∨ x ∈ d.map Prod.snd := by
  induction d with
  | nil =>
    simp [pyDictInsert] at hx
    exact Or.inl hx
  | cons kv0 rest ih =>
    rcases kv0 with ⟨k0, v0⟩
    by_cases hk : k0 = k
    · simp only [pyDictInsert, if_pos hk, List.map_cons, List.mem_cons] at hx
      rcases hx with h | h
      · exact Or.inl h
      · right
        simp only [List.map_cons, List.mem_cons]
        exact Or.inr h
    · simp only [pyDictInsert, if_neg hk, List.map_cons, List.mem_cons] at hx
      rcases hx with h | h
      · right
        simp only [List.map_cons, List.mem_cons]
        exact Or.inl h
      · rcases ih h with h2 | h2
        · exact Or.inl h2
        · right
          simp only [List.map_cons, List.mem_cons]
          exact Or.inr h2

theorem genFieldMap_no_firstname (v em ph txt : String) :
    genFirstNameSel ∉ (pyDict
      [(v, genFirstNameSel), (v, genLastNameSel), (em, genEmailSel),
       (ph, genPhoneSel), (txt, genCoverSel)]).map Prod.snd := by
  intro hmem
  unfold pyDict at hmem
  simp only [pyDictAux] at hmem
  rcases pyDictInsert_snd_subset hmem with h | h
  · exact absurd h (by decide)
  rcases pyDictInsert_snd_subset h with h | h
  · exact absurd h (by decide)
  rcases pyDictInsert_snd_subset h with h | h
  · exact absurd h (by decide)
  have hred : pyDictInsert (pyDictInsert ([] : List (String × Sel)) v
      genFirstNameSel) v genLastNameSel = [(v, genLastNameSel)] := by
    simp [pyDictInsert]
  rw [hred] at h
  exact absurd (by simpa using h) (by decide)

/-- C10 (confirmed): the generic field map is a dict keyed by the texts to
fill, so when first_name and last_name hold the same string the later
last_name entry replaces the selector stored under that key; no run of the
generic handler ever looks up or types into the generic first-name
selector — that field is silently never attempted. -/
theorem generic_field_map_key_collision (rd : List (String × String))
    (txt : String) (v : String)
    (h1 : alistFind rd "first_name" = some v)
    (h2 : alistFind rd "last_name" = some v) :
    EmitsOnly noFirstNameEv (fill_generic_form rd txt) := by
  have hEcho : ∀ msg, noFirstNameEv (Event.echo msg) := by
    intro msg
    exact ⟨by simp, by intro t; simp⟩
  have hRes : genResumeSel ≠ genFirstNameSel := by decide
  unfold fill_generic_form
  apply emitsOnly_bind (emitsOnly_pyPrint (hEcho _))
  intro _
  apply emitsOnly_bind (emitsOnly_pyPrint (hEcho _))
  intro _
  apply emitsOnly_bind (emitsOnly_genUploadPhase hEcho
    ⟨by simp [hRes], by intro t; simp⟩
    (fun t => ⟨by simp, by intro t2; simp [hRes]⟩) rd)
  intro _
  apply emitsOnly_bind_det (emitsOnly_pyGet _ _) (pyGet_det h1)
  apply emitsOnly_bind_det (emitsOnly_pyGet _ _) (pyGet_det h2)
  apply emitsOnly_bind (emitsOnly_pyGet _ _)
  intro em
  apply emitsOnly_bind (emitsOnly_pyGet _ _)
  intro ph
  apply emitsOnly_forEachM
  intro kv hkv
  have hne : kv.2 ≠ genFirstNameSel := by
    intro hEq
    exact genFieldMap_no_firstname v em ph txt (List.mem_map.mpr ⟨kv, hkv, hEq⟩)
  exact emitsOnly_genFillOneField hEcho
    ⟨by simp [hne], by intro t; simp⟩
    ⟨by simp, by intro t; simp [hne]⟩

/-- C10 (witness): a resume record whose first and last name are both
Taylor: the run on the blank page touches the first-name selector in no
event. -/
theorem generic_field_map_key_collision_witness :
    alistFind rdCollide "first_name" = some "Taylor" ∧
    alistFind rdCollide "last_name" = some "Taylor" ∧
    (∃ new, ((fill_generic_form rdCollide txtTest) envBenign stBlank).2.events =
        stBlank.events ++ new ∧ ∀ e ∈ new, noFirstNameEv e) :=
  ⟨rfl, rfl,
   generic_field_map_key_collision rdCollide txtTest "Taylor" rfl rfl
     envBenign stBlank⟩
